import Mathlib

/-!
# Record field accessors of the redundant row format (rem0wrec.h / rem0lrec.h)

A shallow embedding of the inline functions of
`storage/innobase/include/rem0wrec.h`.

* Page memory is a total map from addresses to bytes; a record pointer
  `rec_t *` is the address of the record origin, so `rec - k` and `rec + k`
  are exact integer arithmetic.
* `ulint` values are natural numbers; subtraction wraps modulo `2 ^ 64`
  (`ulint_sub`).
* A function with an out-parameter `ulint *len` returns the pair
  `(result, len)`.
* `ut_ad` assertions are compiled out of release builds and are not part of
  the functions; `ut_a` assertions abort, so a function containing one returns
  an `Option`.
* A function that writes through `rec` returns the new memory.
-/

namespace Rem

/-! ## Machine words and memory -/

/-- Modelled from the spec: the type `byte` (declared in univ.i, which is not
among the sources) is an unsigned 8-bit value. -/
abbrev byte := Fin 256

/-- Page memory: the byte stored at every address. -/
abbrev Mem := Int → byte

/-- Truncating conversion `(byte) n`. -/
def to_byte (n : Nat) : byte := ⟨n % 256, Nat.mod_lt n (by decide)⟩

/-- Subtraction of two `ulint` values, `a - b` modulo `2 ^ 64`. -/
def ulint_sub (a b : Nat) : Nat := (a % 2 ^ 64 + (2 ^ 64 - b % 2 ^ 64)) % 2 ^ 64

/-- Bitwise complement `~m` of a 32-bit constant, as it is widened to `ulint`
(the mask constants are 32-bit; on the header words, which are below `2 ^ 16`,
a 64-bit complement gives the same result). -/
def mask_not (m : Nat) : Nat := (2 ^ 32 - 1) ^^^ m

/-- Modelled from the spec: `mach_read_from_1` (mach0data, not among the
sources) reads one byte. -/
def mach_read_from_1 (mem : Mem) (b : Int) : Nat := (mem b).val

/-- Modelled from the spec: `mach_read_from_2` (mach0data, not among the
sources) reads a 2-byte word, most significant byte first. -/
def mach_read_from_2 (mem : Mem) (b : Int) : Nat :=
  ((mem b).val <<< 8) ||| (mem (b + 1)).val

/-- Modelled from the spec: `mach_write_to_1` (mach0data, not among the
sources) stores the low 8 bits of `n` at `b`. -/
def mach_write_to_1 (mem : Mem) (b : Int) (n : Nat) : Mem :=
  fun a => if a = b then to_byte n else mem a

/-- Modelled from the spec: `mach_write_to_2` (mach0data, not among the
sources) stores the low 16 bits of `n` at `b`, most significant byte first. -/
def mach_write_to_2 (mem : Mem) (b : Int) (n : Nat) : Mem :=
  fun a => if a = b then to_byte (n >>> 8) else if a = b + 1 then to_byte n else mem a

/-- Modelled from the spec: `data_write_sql_null` (data0data, not among the
sources) fills `len` bytes at `data` with the NULL pattern, zero bytes. -/
def data_write_sql_null (mem : Mem) (data : Int) (len : Nat) : Mem :=
  fun a => if data ≤ a ∧ a < data + len then 0 else mem a

/-- Modelled from the spec: `ut_memcpy` (ut0mem, not among the sources) copies
`n` bytes to `dest`; `src i` is the byte at `src + i` of the caller's buffer,
which does not overlap the record. -/
def ut_memcpy (mem : Mem) (dest : Int) (src : Nat → byte) (n : Nat) : Mem :=
  fun a => if dest ≤ a ∧ a < dest + n then src (a - dest).toNat else mem a

/-! ## Constants -/

/-- Modelled from the spec: `UNIV_SQL_NULL` (univ.i, not among the sources),
the length sentinel of an SQL NULL field. -/
def UNIV_SQL_NULL : Nat := 0xFFFFFFFF

/-- Modelled from the spec: `UNIV_SQL_ADD_COL_DEFAULT` (univ.i, not among the
sources), the length sentinel of a field whose default value is not stored. -/
def UNIV_SQL_ADD_COL_DEFAULT : Nat := UNIV_SQL_NULL - 1

/-- Modelled from the spec: `UNIV_SQL_INSTANT_DROP_COL` (univ.i, not among the
sources), the length sentinel of a dropped field that is not stored. -/
def UNIV_SQL_INSTANT_DROP_COL : Nat := UNIV_SQL_ADD_COL_DEFAULT - 1

/-- Modelled from the spec: `REC_N_OLD_EXTRA_BYTES` (rem/rec.h, not among the
sources), the number of fixed header bytes of an old-style record. -/
def REC_N_OLD_EXTRA_BYTES : Nat := 6

/-- Modelled from the spec: `REC_1BYTE_SQL_NULL_MASK` (rem/rec.h, not among the
sources), the NULL flag of a 1-byte end-info slot. -/
def REC_1BYTE_SQL_NULL_MASK : Nat := 0x80

/-- Modelled from the spec: `REC_2BYTE_SQL_NULL_MASK` (rem/rec.h, not among the
sources), the NULL flag of a 2-byte end-info slot. -/
def REC_2BYTE_SQL_NULL_MASK : Nat := 0x8000

/-- Modelled from the spec: `REC_2BYTE_EXTERN_MASK` (rem/rec.h, not among the
sources), the EXTERN flag of a 2-byte end-info slot. -/
def REC_2BYTE_EXTERN_MASK : Nat := 0x4000

/-- Modelled from the spec: `REC_OFFS_COMPACT` (rem/rec.h, not among the
sources), the sub-format flag in slot 0 of the offsets array. -/
def REC_OFFS_COMPACT : Nat := 2 ^ 31

/-- Modelled from the spec: `REC_OFFS_SQL_NULL` (rem/rec.h, not among the
sources), the NULL flag of an offsets-array entry. -/
def REC_OFFS_SQL_NULL : Nat := 2 ^ 31

/-- Modelled from the spec: `REC_OFFS_EXTERNAL` (rem/rec.h, not among the
sources), the EXTERNAL flag of an offsets-array entry. -/
def REC_OFFS_EXTERNAL : Nat := 2 ^ 30

/-- Modelled from the spec: `REC_OFFS_DEFAULT` (rem/rec.h, not among the
sources), the DEFAULT flag of an offsets-array entry. -/
def REC_OFFS_DEFAULT : Nat := 2 ^ 29

/-- Modelled from the spec: `REC_OFFS_DROP` (rem/rec.h, not among the
sources), the DROPPED flag of an offsets-array entry. -/
def REC_OFFS_DROP : Nat := 2 ^ 28

/-- Modelled from the spec: `REC_OFFS_MASK` (rem/rec.h, not among the
sources), the offset bits of an offsets-array entry, below every flag. -/
def REC_OFFS_MASK : Nat := REC_OFFS_DROP - 1

/-- Modelled from the spec: `REC_OFFS_HEADER_SIZE` (rem/rec.h, not among the
sources), the number of words before the per-field part of the array. -/
def REC_OFFS_HEADER_SIZE : Nat := 2

/-! ## The fixed header of an old-style record -/

/-- Modelled from the spec: `rec_get_bit_field_1` (rem/rec.h, not among the
sources) reads a bit field of the header byte at `rec - offs`. -/
def rec_get_bit_field_1 (mem : Mem) (rec : Int) (offs mask shift : Nat) : Nat :=
  (mach_read_from_1 mem (rec - offs) &&& mask) >>> shift

/-- Modelled from the spec: `rec_get_bit_field_2` (rem/rec.h, not among the
sources) reads a bit field of the 2-byte header word at `rec - offs`. -/
def rec_get_bit_field_2 (mem : Mem) (rec : Int) (offs mask shift : Nat) : Nat :=
  (mach_read_from_2 mem (rec - offs) &&& mask) >>> shift

/-- Modelled from the spec: `rec_get_1byte_offs_flag` (rem/rec.h, not among the
sources), the control bit that selects the 1-byte slot width; it is bit 0 of
the header byte at `rec - 3`. -/
def rec_get_1byte_offs_flag (mem : Mem) (rec : Int) : Bool :=
  rec_get_bit_field_1 mem rec 3 0x1 0 != 0

/-- Modelled from the spec: `rec_old_is_versioned` (rem/rec.h, not among the
sources), whether the record carries a row-version byte; it is bit 0x40 of the
info bits, the header byte at `rec - 6`. -/
def rec_old_is_versioned (mem : Mem) (rec : Int) : Bool :=
  (rec_get_bit_field_1 mem rec 6 0xF0 0 &&& 0x40) != 0

/-- Modelled from the spec: `rec_get_n_fields_old_raw` (rem/rec.h, not among
the sources), the field count stored in bits 0x7FE of the header word at
`rec - 4`. -/
def rec_get_n_fields_old_raw (mem : Mem) (rec : Int) : Nat :=
  rec_get_bit_field_2 mem rec 4 0x7FE 1

/-! ## The offsets array -/

/-- The array returned by `rec_get_offsets()`: word `i` of `const ulint *`. -/
abbrev Offsets := Nat → Nat

/-- Modelled from the spec: `rec_offs_base(offsets)[i]` (rem/rec.h, not among
the sources), the per-field part of the array; entry 0 holds the sub-format
flag and entry `1 + n` describes field `n`. -/
def rec_offs_base (offsets : Offsets) (i : Nat) : Nat :=
  offsets (REC_OFFS_HEADER_SIZE + i)

/-- Modelled from the spec: `rec_offs_n_fields` (rem/rec.h, not among the
sources), the field count kept in word 1 of the array. -/
def rec_offs_n_fields (offsets : Offsets) : Nat := offsets 1

/-- Modelled from the spec: the table/index descriptor `dict_index_t`
(dict0mem.h, not among the sources), of which only the three queries used by
the wrappers are kept. -/
structure dict_index_t where
  has_row_versions : Bool
  get_field_off_pos : Nat → Nat
  get_field_phy_pos : Nat → Nat → Nat

/-! ## rem0wrec.h -/

/-- Get an offset to the nth data field in a record: `(offs, len)`. -/
def rec_get_nth_field_offs_low (offsets : Offsets) (n : Nat) : Nat × Nat :=
  let offs := if n = 0 then 0 else rec_offs_base offsets n &&& REC_OFFS_MASK
  let length := rec_offs_base offsets (1 + n)
  let length :=
    if length &&& REC_OFFS_SQL_NULL ≠ 0 then UNIV_SQL_NULL
    else if length &&& REC_OFFS_DEFAULT ≠ 0 then UNIV_SQL_ADD_COL_DEFAULT
    else if length &&& REC_OFFS_DROP ≠ 0 then UNIV_SQL_INSTANT_DROP_COL
    else ulint_sub (length &&& REC_OFFS_MASK) offs
  (offs, length)

/-- Logical-index wrapper of `rec_get_nth_field_offs_low`; `none` is a null
index pointer. -/
def rec_get_nth_field_offs (index : Option dict_index_t) (offsets : Offsets)
    (n : Nat) : Nat × Nat :=
  let n := match index with
    | some ix => if ix.has_row_versions then ix.get_field_off_pos n else n
    | none => n
  rec_get_nth_field_offs_low offsets n

/-- Gets the value of the specified field in the record: the address of the
field and its length. -/
def rec_get_nth_field (index : Option dict_index_t) (rec : Int)
    (offsets : Offsets) (n : Nat) : Int × Nat :=
  let r := rec_get_nth_field_offs index offsets n
  (rec + r.1, r.2)

/-- Get the row version on an old style leaf page record. -/
def rec_get_instant_row_version_old (mem : Mem) (rec : Int) : Nat :=
  (mem (rec - (REC_N_OLD_EXTRA_BYTES + 1 : Nat))).val

/-- End-info word of field `n - 1`, 2-byte form. -/
def rec_2_get_prev_field_end_info (mem : Mem) (rec : Int) (n : Nat) : Nat :=
  let version_length := if rec_old_is_versioned mem rec then 1 else 0
  mach_read_from_2 mem (rec - (REC_N_OLD_EXTRA_BYTES + version_length + 2 * n : Nat))

/-- End-info word of field `n - 1`, 1-byte form. -/
def rec_1_get_prev_field_end_info (mem : Mem) (rec : Int) (n : Nat) : Nat :=
  let version_length := if rec_old_is_versioned mem rec then 1 else 0
  mach_read_from_1 mem (rec - (REC_N_OLD_EXTRA_BYTES + version_length + n : Nat))

/-- Offset of the start of field `n`, 1-byte form. -/
def rec_1_get_field_start_offs_low (mem : Mem) (rec : Int) (n : Nat) : Nat :=
  if n = 0 then 0
  else rec_1_get_prev_field_end_info mem rec n &&& mask_not REC_1BYTE_SQL_NULL_MASK

/-- Offset of the start of field `n`, 2-byte form. -/
def rec_2_get_field_start_offs_low (mem : Mem) (rec : Int) (n : Nat) : Nat :=
  if n = 0 then 0
  else rec_2_get_prev_field_end_info mem rec n &&&
    mask_not (REC_2BYTE_SQL_NULL_MASK ||| REC_2BYTE_EXTERN_MASK)

/-- End-info word of field `n`, 1-byte form. -/
def rec_1_get_field_end_info_low (mem : Mem) (rec : Int) (n : Nat) : Nat :=
  let version_size := if rec_old_is_versioned mem rec then 1 else 0
  mach_read_from_1 mem (rec - (REC_N_OLD_EXTRA_BYTES + version_size + n + 1 : Nat))

/-- End-info word of field `n`, 2-byte form. -/
def rec_2_get_field_end_info_low (mem : Mem) (rec : Int) (n : Nat) : Nat :=
  let version_size := if rec_old_is_versioned mem rec then 1 else 0
  mach_read_from_2 mem (rec - (REC_N_OLD_EXTRA_BYTES + version_size + 2 * n + 2 : Nat))

/-- Offset and length of the nth data field of an old-style record; `none`
when `ut_a(n < rec_get_n_fields_old_raw(rec))` aborts (`ut_a(rec)` holds, a
record pointer being the address of an existing record). -/
def rec_get_nth_field_offs_old_low (mem : Mem) (rec : Int) (n : Nat) :
    Option (Nat × Nat) :=
  if n < rec_get_n_fields_old_raw mem rec then
    if rec_get_1byte_offs_flag mem rec then
      let os := rec_1_get_field_start_offs_low mem rec n
      let next_os := rec_1_get_field_end_info_low mem rec n
      if next_os &&& REC_1BYTE_SQL_NULL_MASK ≠ 0 then some (os, UNIV_SQL_NULL)
      else
        let next_os := next_os &&& mask_not REC_1BYTE_SQL_NULL_MASK
        some (os, ulint_sub next_os os)
    else
      let os := rec_2_get_field_start_offs_low mem rec n
      let next_os := rec_2_get_field_end_info_low mem rec n
      if next_os &&& REC_2BYTE_SQL_NULL_MASK ≠ 0 then some (os, UNIV_SQL_NULL)
      else
        let next_os := next_os &&&
          mask_not (REC_2BYTE_SQL_NULL_MASK ||| REC_2BYTE_EXTERN_MASK)
        some (os, ulint_sub next_os os)
  else none

/-- Logical-index wrapper of `rec_get_nth_field_offs_old_low`. -/
def rec_get_nth_field_offs_old (index : Option dict_index_t) (mem : Mem)
    (rec : Int) (n : Nat) : Option (Nat × Nat) :=
  let n := match index with
    | some ix =>
      let version := rec_get_instant_row_version_old mem rec
      if ix.has_row_versions then ix.get_field_phy_pos n version else n
    | none => n
  rec_get_nth_field_offs_old_low mem rec n

/-- Address and length of the nth field of an old-style record. -/
def rec_get_nth_field_old (index : Option dict_index_t) (mem : Mem) (rec : Int)
    (n : Nat) : Option (Int × Nat) :=
  (rec_get_nth_field_offs_old index mem rec n).map (fun r => (rec + r.1, r.2))

/-- Offset of the start of field `n` of an old-style record. -/
def rec_get_field_start_offs_low (mem : Mem) (rec : Int) (n : Nat) : Nat :=
  if n = 0 then 0
  else if rec_get_1byte_offs_flag mem rec then rec_1_get_field_start_offs_low mem rec n
  else rec_2_get_field_start_offs_low mem rec n

/-- Gets the physical size of an old-style field. -/
def rec_get_nth_field_size_low (mem : Mem) (rec : Int) (n : Nat) : Nat :=
  let os := rec_get_field_start_offs_low mem rec n
  let next_os := rec_get_field_start_offs_low mem rec (n + 1)
  ulint_sub next_os os

/-- Logical-index wrapper of `rec_get_nth_field_size_low`. -/
def rec_get_nth_field_size (index : Option dict_index_t) (mem : Mem) (rec : Int)
    (n : Nat) : Nat :=
  let n := match index with
    | some ix =>
      let version := rec_get_instant_row_version_old mem rec
      if ix.has_row_versions then ix.get_field_phy_pos n version else n
    | none => n
  rec_get_nth_field_size_low mem rec n

/-- Returns nonzero if the extern bit is set in nth field of rec. -/
def rec_offs_nth_extern_low (offsets : Offsets) (n : Nat) : Nat :=
  rec_offs_base offsets (1 + n) &&& REC_OFFS_EXTERNAL

/-- Logical-index wrapper of `rec_offs_nth_extern_low`. -/
def rec_offs_nth_extern (index : Option dict_index_t) (offsets : Offsets)
    (n : Nat) : Nat :=
  let n := match index with
    | some ix => if ix.has_row_versions then ix.get_field_off_pos n else n
    | none => n
  rec_offs_nth_extern_low offsets n

/-- Returns nonzero if the SQL NULL bit is set in nth field of rec. -/
def rec_offs_nth_sql_null_low (offsets : Offsets) (n : Nat) : Nat :=
  rec_offs_base offsets (1 + n) &&& REC_OFFS_SQL_NULL

/-- Mark the nth field as externally stored. -/
def rec_offs_make_nth_extern_low (offsets : Offsets) (n : Nat) : Offsets :=
  fun i =>
    if i = REC_OFFS_HEADER_SIZE + (1 + n) then offsets i ||| REC_OFFS_EXTERNAL
    else offsets i

/-- Logical-index wrapper of `rec_offs_make_nth_extern_low`. -/
def rec_offs_make_nth_extern (index : Option dict_index_t) (offsets : Offsets)
    (n : Nat) : Offsets :=
  let n := match index with
    | some ix => if ix.has_row_versions then ix.get_field_off_pos n else n
    | none => n
  rec_offs_make_nth_extern_low offsets n

/-- Logical-index wrapper of `rec_offs_nth_sql_null_low`. -/
def rec_offs_nth_sql_null (index : Option dict_index_t) (offsets : Offsets)
    (n : Nat) : Nat :=
  let n := match index with
    | some ix => if ix.has_row_versions then ix.get_field_off_pos n else n
    | none => n
  rec_offs_nth_sql_null_low offsets n

/-- Returns nonzero if the default bit is set in nth field of rec. -/
def rec_offs_nth_default_low (offsets : Offsets) (n : Nat) : Nat :=
  rec_offs_base offsets (1 + n) &&& REC_OFFS_DEFAULT

/-- Logical-index wrapper of `rec_offs_nth_default_low`. -/
def rec_offs_nth_default (index : Option dict_index_t) (offsets : Offsets)
    (n : Nat) : Nat :=
  let n := match index with
    | some ix => if ix.has_row_versions then ix.get_field_off_pos n else n
    | none => n
  rec_offs_nth_default_low offsets n

/-- Gets the physical size of a field. -/
def rec_offs_nth_size_low (offsets : Offsets) (n : Nat) : Nat :=
  if n = 0 then rec_offs_base offsets (1 + n) &&& REC_OFFS_MASK
  else ulint_sub (rec_offs_base offsets (1 + n)) (rec_offs_base offsets n) &&&
    REC_OFFS_MASK

/-- Logical-index wrapper of `rec_offs_nth_size_low`. -/
def rec_offs_nth_size (index : Option dict_index_t) (offsets : Offsets)
    (n : Nat) : Nat :=
  let n := match index with
    | some ix => if ix.has_row_versions then ix.get_field_off_pos n else n
    | none => n
  rec_offs_nth_size_low offsets n

/-- Determine if the offsets are for a record in the new compact format. -/
def rec_offs_comp (offsets : Offsets) : Bool :=
  (rec_offs_base offsets 0 &&& REC_OFFS_COMPACT) != 0

/-- Store the end-info word of field `n`, 1-byte form. -/
def rec_1_set_field_end_info_low (mem : Mem) (rec : Int) (n info : Nat) : Mem :=
  let version_length := if rec_old_is_versioned mem rec then 1 else 0
  mach_write_to_1 mem (rec - (REC_N_OLD_EXTRA_BYTES + version_length + n + 1 : Nat)) info

/-- Store the end-info word of field `n`, 2-byte form. -/
def rec_2_set_field_end_info_low (mem : Mem) (rec : Int) (n info : Nat) : Mem :=
  let version_length := if rec_old_is_versioned mem rec then 1 else 0
  mach_write_to_2 mem (rec - (REC_N_OLD_EXTRA_BYTES + version_length + 2 * n + 2 : Nat)) info

/-- Sets the value of the ith field SQL null bit of an old-style record. -/
def rec_set_nth_field_null_bit_low (mem : Mem) (rec : Int) (i : Nat)
    (val : Bool) : Mem :=
  if rec_get_1byte_offs_flag mem rec then
    let info := rec_1_get_field_end_info_low mem rec i
    let info :=
      if val then info ||| REC_1BYTE_SQL_NULL_MASK
      else info &&& mask_not REC_1BYTE_SQL_NULL_MASK
    rec_1_set_field_end_info_low mem rec i info
  else
    let info := rec_2_get_field_end_info_low mem rec i
    let info :=
      if val then info ||| REC_2BYTE_SQL_NULL_MASK
      else info &&& mask_not REC_2BYTE_SQL_NULL_MASK
    rec_2_set_field_end_info_low mem rec i info

/-- Set nth field value to SQL NULL. -/
def rec_set_nth_field_sql_null_low (mem : Mem) (rec : Int) (n : Nat) : Mem :=
  let offset := rec_get_field_start_offs_low mem rec n
  let mem := data_write_sql_null mem (rec + offset) (rec_get_nth_field_size_low mem rec n)
  rec_set_nth_field_null_bit_low mem rec n true

/-- The local function `fn` of `rec_set_nth_field_low`: the loop over
`i = 0 .. n1 - 1` that counts the entries carrying `REC_OFFS_DROP`. -/
def fn (offsets1 : Offsets) (n1 : Nat) : Nat :=
  (List.range n1).foldl
    (fun n_drop i =>
      let len1 := rec_offs_base offsets1 (1 + i)
      if len1 &&& REC_OFFS_DROP ≠ 0 then n_drop + 1 else n_drop)
    0

/-- Modify the value of an already existing field in a record; `none` when
`ut_a(!rec_offs_comp(offsets))` aborts. -/
def rec_set_nth_field_low (mem : Mem) (rec : Int) (offsets : Offsets) (n : Nat)
    (data : Nat → byte) (len : Nat) : Option Mem :=
  if len = UNIV_SQL_NULL then
    if rec_offs_nth_sql_null_low offsets n = 0 then
      if rec_offs_comp offsets then none
      else
        let n_drop := if rec_old_is_versioned mem rec then fn offsets n else 0
        some (rec_set_nth_field_sql_null_low mem rec (n - n_drop))
    else some mem
  else
    let r := rec_get_nth_field none rec offsets n
    let data2 := r.1
    let len2 := r.2
    let mem :=
      if len2 = UNIV_SQL_NULL then
        let n_drop := if rec_old_is_versioned mem rec then fn offsets n else 0
        rec_set_nth_field_null_bit_low mem rec (n - n_drop) false
      else mem
    some (ut_memcpy mem data2 data len)

/-- Logical-index wrapper of `rec_set_nth_field_low`. -/
def rec_set_nth_field (index : Option dict_index_t) (mem : Mem) (rec : Int)
    (offsets : Offsets) (n : Nat) (data : Nat → byte) (len : Nat) : Option Mem :=
  let n := match index with
    | some ix => if ix.has_row_versions then ix.get_field_off_pos n else n
    | none => n
  rec_set_nth_field_low mem rec offsets n data len

/-- Returns nonzero if the field is stored off-page. -/
def rec_2_is_field_extern (index : Option dict_index_t) (mem : Mem) (rec : Int)
    (n : Nat) : Nat :=
  let n := match index with
    | some ix =>
      let version := rec_get_instant_row_version_old mem rec
      if ix.has_row_versions then ix.get_field_phy_pos n version else n
    | none => n
  rec_2_get_field_end_info_low mem rec n &&& REC_2BYTE_EXTERN_MASK

/-- Data size of an old-style physical record. -/
def rec_get_data_size_old (mem : Mem) (rec : Int) : Nat :=
  rec_get_field_start_offs_low mem rec (rec_get_n_fields_old_raw mem rec)

/-! ## Concrete records and arrays used to instantiate the theorems -/

/-- Memory holding the given bytes at addresses `0, 1, 2, ...` and zero
elsewhere. -/
def mem_of_list (bytes : List byte) : Mem :=
  fun a => if 0 ≤ a then bytes.getD a.toNat 0 else 0

/-- Offsets array holding the given words. -/
def offsets_of_list (words : List Nat) : Offsets :=
  fun i => words.getD i 0

/-- A versioned old-style record with origin 16, three fields and 1-byte
slots: end-info 5, 5|NULL, 9 at addresses 8, 7, 6; row version 1 at address 9;
info bits 0x40 at address 10; field count and slot-width flag at 12..13. -/
def example_rec_1byte : Mem :=
  mem_of_list [0, 0, 0, 0, 0, 0, 9, 0x85, 5, 1, 0x40, 0, 0, 7, 0, 0,
    11, 12, 13, 14, 15, 16, 17, 18, 19]

/-- A non-versioned old-style record with origin 16, three fields and 2-byte
slots: end-info 5, 5|NULL, 9|EXTERN at addresses 8..9, 6..7, 4..5. -/
def example_rec_2byte : Mem :=
  mem_of_list [0, 0, 0, 0, 0x40, 9, 0x80, 5, 0, 5, 0, 0, 0, 6, 0, 0,
    11, 12, 13, 14, 15, 16, 17, 18, 19]

/-- An offsets array of an old-style record with three fields ending at 5, 5
(SQL NULL) and 9. -/
def example_offsets : Offsets :=
  offsets_of_list [10, 3, 10, 5, 5 + 2 ^ 31, 9]

/-- Four bytes of caller data. -/
def example_data : Nat → byte :=
  fun i => to_byte (0xA0 + i)

/-- An index descriptor of a table without row versions; its position maps
are deliberately not the identity. -/
def example_index_plain : dict_index_t :=
  ⟨false, fun n => n + 1, fun n v => n + v + 1⟩

/-- Number of offsets entries at an index below `n` that carry the DROPPED
flag. -/
def n_dropped_below (offsets : Offsets) (n : Nat) : Nat :=
  ((List.range n).filter
    (fun i => decide (rec_offs_base offsets (1 + i) &&& REC_OFFS_DROP ≠ 0))).length

/-- Number of offsets entries at an index up to and including `n` that carry
the DROPPED flag. -/
def n_dropped_upto (offsets : Offsets) (n : Nat) : Nat :=
  n_dropped_below offsets (n + 1)

/-- A versioned old-style record with origin 16 and three stored fields, none
of them NULL, in 1-byte slots: end-info 3, 6, 9 at addresses 8, 7, 6; row
version 1 at address 9. -/
def example_rec_versioned : Mem :=
  mem_of_list [0, 0, 0, 0, 0, 0, 9, 6, 3, 1, 0x40, 0, 0, 7, 0, 0,
    11, 12, 13, 14, 15, 16, 17, 18, 19]

/-- An offsets array for `example_rec_versioned` under an index with four
physical positions, of which position 1 is a dropped column that the record
does not store: ends 3, 3 (DROPPED), 6, 9. -/
def example_offsets_dropped : Offsets :=
  offsets_of_list [10, 4, 10, 3, 3 + 2 ^ 28, 6, 9]

/-- End offset of field `n` as stored in the inline header, read in the slot
width of the record with the flag bits masked off. -/
def rec_old_masked_end (mem : Mem) (rec : Int) (n : Nat) : Nat :=
  if rec_get_1byte_offs_flag mem rec then
    rec_1_get_field_end_info_low mem rec n &&& mask_not REC_1BYTE_SQL_NULL_MASK
  else
    rec_2_get_field_end_info_low mem rec n &&&
      mask_not (REC_2BYTE_SQL_NULL_MASK ||| REC_2BYTE_EXTERN_MASK)

/-- Whether the end-info word of field `n` has its NULL flag set, read in the
slot width of the record. -/
def rec_old_null_flag (mem : Mem) (rec : Int) (n : Nat) : Bool :=
  (if rec_get_1byte_offs_flag mem rec then
    rec_1_get_field_end_info_low mem rec n &&& REC_1BYTE_SQL_NULL_MASK
  else rec_2_get_field_end_info_low mem rec n &&& REC_2BYTE_SQL_NULL_MASK) != 0

/-- A valid old-style record: the stored end offsets, flag bits masked off, are
non-decreasing in field number. -/
def rec_old_ends_sorted (mem : Mem) (rec : Int) : Prop :=
  ∀ m < rec_get_n_fields_old_raw mem rec - 1,
    rec_old_masked_end mem rec m ≤ rec_old_masked_end mem rec (m + 1)

instance rec_old_ends_sorted_decidable (mem : Mem) (rec : Int) :
    Decidable (rec_old_ends_sorted mem rec) :=
  Nat.decidableBallLT _ _

/-- End offset of the nearest field before `n` whose NULL flag is clear, or 0
if there is none. -/
def prev_non_null_end (mem : Mem) (rec : Int) : Nat → Nat
  | 0 => 0
  | m + 1 =>
    if rec_old_null_flag mem rec m then prev_non_null_end mem rec m
    else rec_old_masked_end mem rec m

/-- A versioned old-style record with origin 16 and three fields in 1-byte
slots, of which field 1 is an SQL NULL of fixed size 4 and field 2 an SQL NULL
of size 0: end-info 5, 9|NULL, 9|NULL at addresses 8, 7, 6. -/
def example_rec_fixed_null : Mem :=
  mem_of_list [0, 0, 0, 0, 0, 0, 0x89, 0x89, 5, 1, 0x40, 0, 0, 7, 0, 0,
    11, 12, 13, 14, 15, 0, 0, 0, 0]

/-- The offsets array of `example_rec_fixed_null`: ends 5, 9 (SQL NULL),
9 (SQL NULL). -/
def example_offsets_fixed_null : Offsets :=
  offsets_of_list [10, 3, 10, 5, 9 + 2 ^ 31, 9 + 2 ^ 31]

/-- An offsets array of a compact record with three fields ending at 5, 9 and
9, the last one flagged DEFAULT (its value is not stored). -/
def example_offsets_default : Offsets :=
  offsets_of_list [10, 3, 2 ^ 31 + 10, 5, 9, 9 + 2 ^ 29]

/-- An index descriptor of a table with row versions. -/
def example_index_versioned : dict_index_t :=
  ⟨true, fun n => n + 1, fun n v => n - v⟩

/-- A versioned old-style record with origin 16 and three fields in 1-byte
slots, of which fields 1 and 2 are SQL NULLs of size 0: end-info 5, 5|NULL,
5|NULL at addresses 8, 7, 6. -/
def example_rec_nulls : Mem :=
  mem_of_list [0, 0, 0, 0, 0, 0, 0x85, 0x85, 5, 1, 0x40, 0, 0, 7, 0, 0,
    11, 12, 13, 14, 15]

/-- An offsets array of a compact record with three fields ending at 5, 5
(SQL NULL) and 9. -/
def example_offsets_compact_null : Offsets :=
  offsets_of_list [10, 3, 2 ^ 31 + 10, 5, 5 + 2 ^ 31, 9]

/-! ## Bit-level facts -/

theorem and_two_pow_eq (x k : Nat) : x &&& 2 ^ k = if x.testBit k then 2 ^ k else 0 := by
  apply Nat.eq_of_testBit_eq
  intro i
  rw [Nat.testBit_and, Nat.testBit_two_pow]
  by_cases hk : k = i
  · subst hk
    cases h : x.testBit k <;> simp [Nat.testBit_two_pow_self]
  · cases h : x.testBit k <;> simp [hk, Nat.testBit_two_pow_of_ne hk]

theorem and_two_pow_ne_zero_iff (x k : Nat) : x &&& 2 ^ k ≠ 0 ↔ x.testBit k = true := by
  rw [and_two_pow_eq]
  cases h : x.testBit k <;> simp

theorem testBit_of_lt (x i k : Nat) (hx : x < 2 ^ k) (hi : k ≤ i) : x.testBit i = false :=
  Nat.testBit_lt_two_pow (lt_of_lt_of_le hx (Nat.pow_le_pow_right (by decide) hi))

theorem testBit_mask_not (m i : Nat) :
    (mask_not m).testBit i = xor (decide (i < 32)) (m.testBit i) := by
  unfold mask_not
  rw [Nat.testBit_xor, Nat.testBit_two_pow_sub_one]

/-- On a word below `2 ^ 32` the complement of the mask may be taken in 32 or
in 64 bits. -/
theorem and_mask_not_width (x m : Nat) (hx : x < 2 ^ 32) :
    x &&& mask_not m = x &&& ((2 ^ 64 - 1) ^^^ m) := by
  apply Nat.eq_of_testBit_eq
  intro k
  rw [Nat.testBit_and, Nat.testBit_and, testBit_mask_not, Nat.testBit_xor,
    Nat.testBit_two_pow_sub_one]
  by_cases hk : k < 32
  · have : k < 64 := by omega
    simp [hk, this]
  · have := testBit_of_lt x k 32 hx (by omega)
    simp [this]

/-- Clearing the NULL flag of a 1-byte end-info word keeps its low 7 bits. -/
theorem clear_null_1 (x : Nat) (hx : x < 256) :
    x &&& mask_not REC_1BYTE_SQL_NULL_MASK = x % 128 := by
  apply Nat.eq_of_testBit_eq
  intro i
  have e1 : REC_1BYTE_SQL_NULL_MASK = 2 ^ 7 := by decide
  have e2 : (128 : Nat) = 2 ^ 7 := by decide
  rw [Nat.testBit_and, testBit_mask_not, e1, e2, Nat.testBit_two_pow, Nat.testBit_mod_two_pow]
  by_cases h8 : 8 ≤ i
  · have := testBit_of_lt x i 8 hx h8
    have h7 : ¬ i < 7 := by omega
    simp [this, h7]
  · by_cases h7 : i = 7
    · subst h7; simp
    · have a : i < 7 := by omega
      have b : i < 32 := by omega
      have c : ¬ 7 = i := by omega
      simp [a, b, c]

/-- Clearing the NULL and EXTERN flags of a 2-byte end-info word keeps its low
14 bits. -/
theorem clear_flags_2 (x : Nat) (hx : x < 65536) :
    x &&& mask_not (REC_2BYTE_SQL_NULL_MASK ||| REC_2BYTE_EXTERN_MASK) = x % 16384 := by
  apply Nat.eq_of_testBit_eq
  intro i
  have e1 : REC_2BYTE_SQL_NULL_MASK = 2 ^ 15 := by decide
  have e3 : REC_2BYTE_EXTERN_MASK = 2 ^ 14 := by decide
  have e2 : (16384 : Nat) = 2 ^ 14 := by decide
  rw [Nat.testBit_and, testBit_mask_not, e1, e2, e3, Nat.testBit_or, Nat.testBit_two_pow,
    Nat.testBit_two_pow, Nat.testBit_mod_two_pow]
  by_cases h16 : 16 ≤ i
  · have := testBit_of_lt x i 16 hx h16
    have h7 : ¬ i < 14 := by omega
    simp [this, h7]
  · by_cases h15 : i = 15
    · subst h15; simp
    · by_cases h14 : i = 14
      · subst h14; simp
      · have a : i < 14 := by omega
        have b : i < 32 := by omega
        have c : ¬ 15 = i := by omega
        have d : ¬ 14 = i := by omega
        simp [a, b, c, d]

theorem mach_read_from_1_lt (mem : Mem) (b : Int) : mach_read_from_1 mem b < 256 :=
  (mem b).isLt

theorem mach_read_from_2_eq (mem : Mem) (b : Int) :
    mach_read_from_2 mem b = (mem b).val * 256 + (mem (b + 1)).val := by
  unfold mach_read_from_2
  have h := Nat.mul_add_lt_is_or (i := 8) (mem (b + 1)).isLt (mem b).val
  rw [Nat.shiftLeft_eq, Nat.mul_comm, ← h]

theorem mach_read_from_2_lt (mem : Mem) (b : Int) : mach_read_from_2 mem b < 65536 := by
  rw [mach_read_from_2_eq]
  have := (mem b).isLt
  have := (mem (b + 1)).isLt
  omega

/-! ## The offsets-array lookup -/

theorem and_offs_mask_lt (x : Nat) : x &&& REC_OFFS_MASK < 2 ^ 28 :=
  Nat.and_lt_two_pow x (by decide)

theorem ulint_sub_ne_sentinel (a b : Nat) (ha : a < 2 ^ 28) (hb : b < 2 ^ 28) :
    ulint_sub a b ≠ UNIV_SQL_NULL := by
  unfold ulint_sub UNIV_SQL_NULL; omega

theorem ulint_sub_of_le (a b : Nat) (ha : a < 2 ^ 64) (hab : b ≤ a) :
    ulint_sub a b = a - b := by
  unfold ulint_sub; omega

theorem offs_low_fst_lt (offsets : Offsets) (n : Nat) :
    (rec_get_nth_field_offs_low offsets n).1 < 2 ^ 28 := by
  unfold rec_get_nth_field_offs_low
  by_cases h : n = 0
  · simp [h]
  · simp only [h, if_false]; exact and_offs_mask_lt _

theorem offs_low_snd_plain (offsets : Offsets) (n : Nat)
    (hnull : rec_offs_base offsets (1 + n) &&& REC_OFFS_SQL_NULL = 0)
    (hdef : rec_offs_base offsets (1 + n) &&& REC_OFFS_DEFAULT = 0)
    (hdrop : rec_offs_base offsets (1 + n) &&& REC_OFFS_DROP = 0) :
    (rec_get_nth_field_offs_low offsets n).2 =
      ulint_sub (rec_offs_base offsets (1 + n) &&& REC_OFFS_MASK)
        (rec_get_nth_field_offs_low offsets n).1 := by
  simp [rec_get_nth_field_offs_low, hnull, hdef, hdrop]

theorem ut_memcpy_copied (mem : Mem) (dest : Int) (src : Nat → byte) (n i : Nat)
    (hi : i < n) : ut_memcpy mem dest src n (dest + i) = src i := by
  unfold ut_memcpy
  have h : dest ≤ dest + (i : Int) ∧ dest + (i : Int) < dest + (n : Int) := by omega
  simp [h]

theorem ut_memcpy_outside (mem : Mem) (dest : Int) (src : Nat → byte) (n : Nat)
    (a : Int) (ha : a < dest ∨ dest + n ≤ a) : ut_memcpy mem dest src n a = mem a := by
  unfold ut_memcpy
  have h : ¬ (dest ≤ a ∧ a < dest + (n : Int)) := by omega
  simp [h]

/-- C1: for a physical field `n < n_fields` whose entry carries none of the
NULL/DEFAULT/DROPPED flags and whose current length is `len`, writing `len`
bytes of `data` with `rec_set_nth_field_low` succeeds, and afterwards
`rec_get_nth_field(nullptr, rec, offsets, n, &l)` returns the same address with
`l = len` and the `len` bytes starting there are the bytes of `data`. -/
theorem rec_set_nth_field_low_round_trip (mem : Mem) (rec : Int) (offsets : Offsets)
    (n : Nat) (data : Nat → byte)
    (_hn : n < rec_offs_n_fields offsets)
    (hnull : rec_offs_nth_sql_null_low offsets n = 0)
    (hdef : rec_offs_nth_default_low offsets n = 0)
    (hdrop : rec_offs_base offsets (1 + n) &&& REC_OFFS_DROP = 0) :
    ∃ mem1,
      rec_set_nth_field_low mem rec offsets n data
          (rec_get_nth_field_offs_low offsets n).2 = some mem1 ∧
      rec_get_nth_field none rec offsets n =
        (rec + (rec_get_nth_field_offs_low offsets n).1,
          (rec_get_nth_field_offs_low offsets n).2) ∧
      ∀ i, i < (rec_get_nth_field_offs_low offsets n).2 →
        mem1 ((rec_get_nth_field none rec offsets n).1 + i) = data i := by
  have hlen := offs_low_snd_plain offsets n hnull hdef hdrop
  have hne : (rec_get_nth_field_offs_low offsets n).2 ≠ UNIV_SQL_NULL := by
    rw [hlen]
    exact ulint_sub_ne_sentinel _ _ (and_offs_mask_lt _) (offs_low_fst_lt offsets n)
  have hget : rec_get_nth_field none rec offsets n =
      (rec + (rec_get_nth_field_offs_low offsets n).1,
        (rec_get_nth_field_offs_low offsets n).2) := rfl
  refine ⟨ut_memcpy mem (rec + (rec_get_nth_field_offs_low offsets n).1) data
    (rec_get_nth_field_offs_low offsets n).2, ?_, hget, ?_⟩
  · unfold rec_set_nth_field_low
    simp only [hne, if_false, hget]
  · intro i hi
    rw [hget]
    exact ut_memcpy_copied mem _ data _ i hi

/-- Instance of C1: field 2 of the example array (offset 5, length 4) of the
1-byte example record. -/
theorem rec_set_nth_field_low_round_trip_witness :
    (rec_get_nth_field_offs_low example_offsets 2 = (5, 4)) ∧
    ∃ mem1,
      rec_set_nth_field_low example_rec_1byte 16 example_offsets 2 example_data
          (rec_get_nth_field_offs_low example_offsets 2).2 = some mem1 ∧
      rec_get_nth_field none 16 example_offsets 2 =
        ((16 : Int) + (rec_get_nth_field_offs_low example_offsets 2).1,
          (rec_get_nth_field_offs_low example_offsets 2).2) ∧
      ∀ i, i < (rec_get_nth_field_offs_low example_offsets 2).2 →
        mem1 ((rec_get_nth_field none 16 example_offsets 2).1 + i) = example_data i :=
  ⟨by decide, rec_set_nth_field_low_round_trip example_rec_1byte 16 example_offsets 2
    example_data (by decide) (by decide) (by decide) (by decide)⟩


/-! ## The inline header of an old-style record -/

theorem rec_1_prev_end_info_succ (mem : Mem) (rec : Int) (n : Nat) :
    rec_1_get_prev_field_end_info mem rec (n + 1) = rec_1_get_field_end_info_low mem rec n :=
  rfl

theorem rec_2_prev_end_info_succ (mem : Mem) (rec : Int) (n : Nat) :
    rec_2_get_prev_field_end_info mem rec (n + 1) = rec_2_get_field_end_info_low mem rec n :=
  rfl

theorem rec_1_end_info_lt (mem : Mem) (rec : Int) (n : Nat) :
    rec_1_get_field_end_info_low mem rec n < 256 :=
  mach_read_from_1_lt mem _

theorem rec_2_end_info_lt (mem : Mem) (rec : Int) (n : Nat) :
    rec_2_get_field_end_info_low mem rec n < 65536 :=
  mach_read_from_2_lt mem _

theorem rec_1_start_succ (mem : Mem) (rec : Int) (n : Nat) :
    rec_1_get_field_start_offs_low mem rec (n + 1) =
      rec_1_get_field_end_info_low mem rec n &&& mask_not REC_1BYTE_SQL_NULL_MASK := by
  simp [rec_1_get_field_start_offs_low, rec_1_prev_end_info_succ]

theorem rec_2_start_succ (mem : Mem) (rec : Int) (n : Nat) :
    rec_2_get_field_start_offs_low mem rec (n + 1) =
      rec_2_get_field_end_info_low mem rec n &&&
        mask_not (REC_2BYTE_SQL_NULL_MASK ||| REC_2BYTE_EXTERN_MASK) := by
  simp [rec_2_get_field_start_offs_low, rec_2_prev_end_info_succ]

theorem rec_start_succ (mem : Mem) (rec : Int) (n : Nat) :
    rec_get_field_start_offs_low mem rec (n + 1) =
      if rec_get_1byte_offs_flag mem rec then
        rec_1_get_field_end_info_low mem rec n &&& mask_not REC_1BYTE_SQL_NULL_MASK
      else
        rec_2_get_field_end_info_low mem rec n &&&
          mask_not (REC_2BYTE_SQL_NULL_MASK ||| REC_2BYTE_EXTERN_MASK) := by
  simp [rec_get_field_start_offs_low, rec_1_start_succ, rec_2_start_succ]

theorem rec_start_eq_width (mem : Mem) (rec : Int) (n : Nat) :
    rec_get_field_start_offs_low mem rec n =
      if rec_get_1byte_offs_flag mem rec then rec_1_get_field_start_offs_low mem rec n
      else rec_2_get_field_start_offs_low mem rec n := by
  unfold rec_get_field_start_offs_low rec_1_get_field_start_offs_low
    rec_2_get_field_start_offs_low
  by_cases h : n = 0 <;> simp [h]

/-- C2: a 3-field old-style record in 1-byte-slot form that carries a
row-version byte and whose end-info slots for fields 0, 1, 2 (the header bytes
at `rec - 8`, `rec - 9`, `rec - 10`) are 5, 5|REC_1BYTE_SQL_NULL_MASK and 9
decodes to field 0 = (0, 5), field 1 = (5, UNIV_SQL_NULL), field 2 = (5, 4). -/
theorem rec_get_nth_field_offs_old_low_worked_example (mem : Mem) (rec : Int)
    (h1 : rec_get_1byte_offs_flag mem rec = true)
    (hv : rec_old_is_versioned mem rec = true)
    (hn : rec_get_n_fields_old_raw mem rec = 3)
    (e0 : (mem (rec - 8)).val = 5)
    (e1 : (mem (rec - 9)).val = 5 ||| REC_1BYTE_SQL_NULL_MASK)
    (e2 : (mem (rec - 10)).val = 9) :
    rec_get_nth_field_offs_old_low mem rec 0 = some (0, 5) ∧
    rec_get_nth_field_offs_old_low mem rec 1 = some (5, UNIV_SQL_NULL) ∧
    rec_get_nth_field_offs_old_low mem rec 2 = some (5, 4) := by
  have s0 : rec_1_get_field_end_info_low mem rec 0 = 5 := by
    simp only [rec_1_get_field_end_info_low, hv, if_true, mach_read_from_1,
      REC_N_OLD_EXTRA_BYTES]
    exact e0
  have s1 : rec_1_get_field_end_info_low mem rec 1 = 5 ||| REC_1BYTE_SQL_NULL_MASK := by
    simp only [rec_1_get_field_end_info_low, hv, if_true, mach_read_from_1,
      REC_N_OLD_EXTRA_BYTES]
    exact e1
  have s2 : rec_1_get_field_end_info_low mem rec 2 = 9 := by
    simp only [rec_1_get_field_end_info_low, hv, if_true, mach_read_from_1,
      REC_N_OLD_EXTRA_BYTES]
    exact e2
  have t0 : rec_1_get_field_start_offs_low mem rec 0 = 0 := rfl
  have t1 : rec_1_get_field_start_offs_low mem rec 1 = 5 := by
    rw [rec_1_start_succ, s0]; decide
  have t2 : rec_1_get_field_start_offs_low mem rec 2 = 5 := by
    rw [rec_1_start_succ, s1]; decide
  refine ⟨?_, ?_, ?_⟩
  · simp only [rec_get_nth_field_offs_old_low, hn, h1, s0, t0, if_true]
    decide
  · simp only [rec_get_nth_field_offs_old_low, hn, h1, s1, t1, if_true]
    decide
  · simp only [rec_get_nth_field_offs_old_low, hn, h1, s2, t2, if_true]
    decide

/-- Instance of C2: the 1-byte example record. -/
theorem rec_get_nth_field_offs_old_low_worked_example_witness :
    rec_get_nth_field_offs_old_low example_rec_1byte 16 0 = some (0, 5) ∧
    rec_get_nth_field_offs_old_low example_rec_1byte 16 1 = some (5, UNIV_SQL_NULL) ∧
    rec_get_nth_field_offs_old_low example_rec_1byte 16 2 = some (5, 4) :=
  rec_get_nth_field_offs_old_low_worked_example example_rec_1byte 16
    (by decide) (by decide) (by decide) (by decide) (by decide) (by decide)

theorem and_offs_mask_eq_mod (x : Nat) : x &&& REC_OFFS_MASK = x % 2 ^ 28 :=
  Nat.and_pow_two_sub_one_eq_mod x 28

/-- C3: for `n < n_fields`, `rec_get_nth_field_offs_low` returns offset 0 when
`n = 0` and otherwise entry `n` masked with `REC_OFFS_MASK`; the length is
`UNIV_SQL_NULL` if entry `n + 1` has `REC_OFFS_SQL_NULL` set, else
`UNIV_SQL_ADD_COL_DEFAULT` if it has `REC_OFFS_DEFAULT` set, else
`UNIV_SQL_INSTANT_DROP_COL` if it has `REC_OFFS_DROP` set, else entry `n + 1`
masked with `REC_OFFS_MASK` minus the returned offset (an `ulint` difference,
which is the exact difference whenever the masked end is not below the
offset). The mask keeps the low 28 bits and the three flags are bits 31, 29
and 28 of the entry. -/
theorem rec_get_nth_field_offs_low_spec (offsets : Offsets) (n : Nat)
    (_hn : n < rec_offs_n_fields offsets) :
    (rec_get_nth_field_offs_low offsets n).1 =
      (if n = 0 then 0 else rec_offs_base offsets n &&& REC_OFFS_MASK) ∧
    (rec_get_nth_field_offs_low offsets n).2 =
      (if rec_offs_base offsets (1 + n) &&& REC_OFFS_SQL_NULL ≠ 0 then UNIV_SQL_NULL
       else if rec_offs_base offsets (1 + n) &&& REC_OFFS_DEFAULT ≠ 0 then
         UNIV_SQL_ADD_COL_DEFAULT
       else if rec_offs_base offsets (1 + n) &&& REC_OFFS_DROP ≠ 0 then
         UNIV_SQL_INSTANT_DROP_COL
       else ulint_sub (rec_offs_base offsets (1 + n) &&& REC_OFFS_MASK)
         (rec_get_nth_field_offs_low offsets n).1) ∧
    ((rec_get_nth_field_offs_low offsets n).1 ≤
        rec_offs_base offsets (1 + n) &&& REC_OFFS_MASK →
      ulint_sub (rec_offs_base offsets (1 + n) &&& REC_OFFS_MASK)
          (rec_get_nth_field_offs_low offsets n).1 =
        (rec_offs_base offsets (1 + n) &&& REC_OFFS_MASK) -
          (rec_get_nth_field_offs_low offsets n).1) ∧
    rec_offs_base offsets n &&& REC_OFFS_MASK = rec_offs_base offsets n % 2 ^ 28 ∧
    rec_offs_base offsets (1 + n) &&& REC_OFFS_MASK =
      rec_offs_base offsets (1 + n) % 2 ^ 28 ∧
    (rec_offs_base offsets (1 + n) &&& REC_OFFS_SQL_NULL ≠ 0 ↔
      (rec_offs_base offsets (1 + n)).testBit 31 = true) ∧
    (rec_offs_base offsets (1 + n) &&& REC_OFFS_DEFAULT ≠ 0 ↔
      (rec_offs_base offsets (1 + n)).testBit 29 = true) ∧
    (rec_offs_base offsets (1 + n) &&& REC_OFFS_DROP ≠ 0 ↔
      (rec_offs_base offsets (1 + n)).testBit 28 = true) := by
  refine ⟨rfl, rfl, fun h => ?_, and_offs_mask_eq_mod _, and_offs_mask_eq_mod _,
    and_two_pow_ne_zero_iff _ 31, and_two_pow_ne_zero_iff _ 29, and_two_pow_ne_zero_iff _ 28⟩
  have := and_offs_mask_lt (rec_offs_base offsets (1 + n))
  exact ulint_sub_of_le _ _ (by omega) h

/-- Instance of C3: field 2 of the example array starts at 5 and is 4 bytes
long; field 1 is SQL NULL. -/
theorem rec_get_nth_field_offs_low_spec_witness :
    rec_get_nth_field_offs_low example_offsets 2 = (5, 4) ∧
    rec_get_nth_field_offs_low example_offsets 1 = (5, UNIV_SQL_NULL) ∧
    (rec_get_nth_field_offs_low example_offsets 2).1 =
      (if 2 = 0 then 0 else rec_offs_base example_offsets 2 &&& REC_OFFS_MASK) ∧
    (rec_get_nth_field_offs_low example_offsets 2).2 =
      (if rec_offs_base example_offsets (1 + 2) &&& REC_OFFS_SQL_NULL ≠ 0 then UNIV_SQL_NULL
       else if rec_offs_base example_offsets (1 + 2) &&& REC_OFFS_DEFAULT ≠ 0 then
         UNIV_SQL_ADD_COL_DEFAULT
       else if rec_offs_base example_offsets (1 + 2) &&& REC_OFFS_DROP ≠ 0 then
         UNIV_SQL_INSTANT_DROP_COL
       else ulint_sub (rec_offs_base example_offsets (1 + 2) &&& REC_OFFS_MASK)
         (rec_get_nth_field_offs_low example_offsets 2).1) ∧
    (rec_get_nth_field_offs_low example_offsets 1).2 =
      (if rec_offs_base example_offsets (1 + 1) &&& REC_OFFS_SQL_NULL ≠ 0 then UNIV_SQL_NULL
       else if rec_offs_base example_offsets (1 + 1) &&& REC_OFFS_DEFAULT ≠ 0 then
         UNIV_SQL_ADD_COL_DEFAULT
       else if rec_offs_base example_offsets (1 + 1) &&& REC_OFFS_DROP ≠ 0 then
         UNIV_SQL_INSTANT_DROP_COL
       else ulint_sub (rec_offs_base example_offsets (1 + 1) &&& REC_OFFS_MASK)
         (rec_get_nth_field_offs_low example_offsets 1).1) :=
  ⟨by decide, by decide,
    (rec_get_nth_field_offs_low_spec example_offsets 2 (by decide)).1,
    (rec_get_nth_field_offs_low_spec example_offsets 2 (by decide)).2.1,
    (rec_get_nth_field_offs_low_spec example_offsets 1 (by decide)).2.1⟩

/-- The decoder returns the field start, and `UNIV_SQL_NULL` or the field size
according to the NULL flag of the end-info. -/
theorem offs_old_low_eq (mem : Mem) (rec : Int) (n : Nat)
    (hn : n < rec_get_n_fields_old_raw mem rec) :
    rec_get_nth_field_offs_old_low mem rec n =
      some (rec_get_field_start_offs_low mem rec n,
        if (if rec_get_1byte_offs_flag mem rec then
              rec_1_get_field_end_info_low mem rec n &&& REC_1BYTE_SQL_NULL_MASK
            else rec_2_get_field_end_info_low mem rec n &&& REC_2BYTE_SQL_NULL_MASK) ≠ 0
        then UNIV_SQL_NULL
        else rec_get_nth_field_size_low mem rec n) := by
  have hsize : rec_get_nth_field_size_low mem rec n =
      ulint_sub (rec_get_field_start_offs_low mem rec (n + 1))
        (rec_get_field_start_offs_low mem rec n) := rfl
  rw [hsize, rec_start_succ, rec_start_eq_width]
  by_cases h1 : rec_get_1byte_offs_flag mem rec = true
  · by_cases hnull :
        rec_1_get_field_end_info_low mem rec n &&& REC_1BYTE_SQL_NULL_MASK = 0
    · simp [rec_get_nth_field_offs_old_low, hn, h1, hnull]
    · simp [rec_get_nth_field_offs_old_low, hn, h1, hnull]
  · by_cases hnull :
        rec_2_get_field_end_info_low mem rec n &&& REC_2BYTE_SQL_NULL_MASK = 0
    · simp [rec_get_nth_field_offs_old_low, hn, h1, hnull]
    · simp [rec_get_nth_field_offs_old_low, hn, h1, hnull]

/-- The start of a field is below `2 ^ 14`. -/
theorem rec_start_lt (mem : Mem) (rec : Int) (n : Nat) :
    rec_get_field_start_offs_low mem rec n < 16384 := by
  cases n with
  | zero => exact (by decide : (0 : Nat) < 16384)
  | succ m =>
    rw [rec_start_succ]
    have a := rec_1_end_info_lt mem rec m
    have b := rec_2_end_info_lt mem rec m
    split
    · rw [clear_null_1 _ a]; omega
    · rw [clear_flags_2 _ b]; omega

/-- C4: for `n < n_fields`, `rec_get_nth_field_offs_old_low` returns the offset
`rec_get_field_start_offs_low(rec, n)`; its length is `UNIV_SQL_NULL` when the
end-info of field `n` has the NULL flag set, and otherwise it is
`rec_get_nth_field_size_low(rec, n)`, which is the `ulint` difference of the
starts of fields `n + 1` and `n` (their exact difference when the starts are
in order). -/
theorem rec_get_nth_field_offs_old_low_agrees (mem : Mem) (rec : Int) (n : Nat)
    (hn : n < rec_get_n_fields_old_raw mem rec) :
    rec_get_nth_field_offs_old_low mem rec n =
      some (rec_get_field_start_offs_low mem rec n,
        if (if rec_get_1byte_offs_flag mem rec then
              rec_1_get_field_end_info_low mem rec n &&& REC_1BYTE_SQL_NULL_MASK
            else rec_2_get_field_end_info_low mem rec n &&& REC_2BYTE_SQL_NULL_MASK) ≠ 0
        then UNIV_SQL_NULL
        else rec_get_nth_field_size_low mem rec n) ∧
    rec_get_nth_field_size_low mem rec n =
      ulint_sub (rec_get_field_start_offs_low mem rec (n + 1))
        (rec_get_field_start_offs_low mem rec n) ∧
    (rec_get_field_start_offs_low mem rec n ≤ rec_get_field_start_offs_low mem rec (n + 1) →
      rec_get_nth_field_size_low mem rec n =
        rec_get_field_start_offs_low mem rec (n + 1) -
          rec_get_field_start_offs_low mem rec n) := by
  refine ⟨offs_old_low_eq mem rec n hn, rfl, fun h => ?_⟩
  have hlt := rec_start_lt mem rec (n + 1)
  exact ulint_sub_of_le _ _ (by omega) h

/-- Instance of C4: field 2 of the 2-byte example record, whose end-info is
9|EXTERN, starts at 5 and is 4 bytes long. -/
theorem rec_get_nth_field_offs_old_low_agrees_witness :
    rec_get_nth_field_offs_old_low example_rec_2byte 16 2 = some (5, 4) ∧
    (rec_get_nth_field_offs_old_low example_rec_2byte 16 2 =
      some (rec_get_field_start_offs_low example_rec_2byte 16 2,
        if (if rec_get_1byte_offs_flag example_rec_2byte 16 then
              rec_1_get_field_end_info_low example_rec_2byte 16 2 &&& REC_1BYTE_SQL_NULL_MASK
            else rec_2_get_field_end_info_low example_rec_2byte 16 2 &&&
              REC_2BYTE_SQL_NULL_MASK) ≠ 0
        then UNIV_SQL_NULL
        else rec_get_nth_field_size_low example_rec_2byte 16 2) ∧
    rec_get_nth_field_size_low example_rec_2byte 16 2 =
      ulint_sub (rec_get_field_start_offs_low example_rec_2byte 16 (2 + 1))
        (rec_get_field_start_offs_low example_rec_2byte 16 2) ∧
    (rec_get_field_start_offs_low example_rec_2byte 16 2 ≤
        rec_get_field_start_offs_low example_rec_2byte 16 (2 + 1) →
      rec_get_nth_field_size_low example_rec_2byte 16 2 =
        rec_get_field_start_offs_low example_rec_2byte 16 (2 + 1) -
          rec_get_field_start_offs_low example_rec_2byte 16 2)) :=
  ⟨by decide, rec_get_nth_field_offs_old_low_agrees example_rec_2byte 16 2 (by decide)⟩

theorem testBit_and_mask_not (x m k : Nat) (hx : x < 2 ^ 32) :
    (x &&& mask_not m).testBit k = (x.testBit k && !m.testBit k) := by
  rw [Nat.testBit_and, testBit_mask_not]
  by_cases hk : k < 32
  · simp [hk]
  · have := testBit_of_lt x k 32 hx (by omega)
    simp [this]

/-- C5: `rec_get_field_start_offs_low(rec, 0) = 0`, and for `1 ≤ n ≤ n_fields`
the start of field `n` is the end-info word of field `n - 1` with the NULL flag
bit (bit 7 in 1-byte form; bits 15 and, for EXTERN, 14 in 2-byte form) cleared
and every other bit kept, for records with and without a row-version byte. -/
theorem rec_get_field_start_offs_low_prev_end (mem : Mem) (rec : Int) (n : Nat)
    (h1 : 1 ≤ n) (_hn : n ≤ rec_get_n_fields_old_raw mem rec) :
    rec_get_field_start_offs_low mem rec 0 = 0 ∧
    (rec_get_1byte_offs_flag mem rec = true →
      rec_get_field_start_offs_low mem rec n =
        rec_1_get_field_end_info_low mem rec (n - 1) &&&
          mask_not REC_1BYTE_SQL_NULL_MASK ∧
      ∀ k, (rec_get_field_start_offs_low mem rec n).testBit k =
        ((rec_1_get_field_end_info_low mem rec (n - 1)).testBit k && decide (k ≠ 7))) ∧
    (rec_get_1byte_offs_flag mem rec = false →
      rec_get_field_start_offs_low mem rec n =
        rec_2_get_field_end_info_low mem rec (n - 1) &&&
          mask_not (REC_2BYTE_SQL_NULL_MASK ||| REC_2BYTE_EXTERN_MASK) ∧
      ∀ k, (rec_get_field_start_offs_low mem rec n).testBit k =
        ((rec_2_get_field_end_info_low mem rec (n - 1)).testBit k &&
          decide (k ≠ 15 ∧ k ≠ 14))) := by
  obtain ⟨m, rfl⟩ : ∃ m, n = m + 1 := ⟨n - 1, by omega⟩
  rw [rec_start_succ, Nat.add_sub_cancel]
  refine ⟨rfl, ?_, ?_⟩
  · intro hw
    rw [if_pos hw]
    refine ⟨rfl, fun k => ?_⟩
    have hlt : rec_1_get_field_end_info_low mem rec m < 2 ^ 32 :=
      lt_trans (rec_1_end_info_lt mem rec m) (by decide)
    have e : REC_1BYTE_SQL_NULL_MASK = 2 ^ 7 := by decide
    rw [testBit_and_mask_not _ _ _ hlt, e, Nat.testBit_two_pow]
    by_cases hk : k = 7
    · subst hk; simp
    · have : ¬ 7 = k := fun h => hk h.symm
      simp [hk, this]
  · intro hw
    rw [if_neg (by simp [hw])]
    refine ⟨rfl, fun k => ?_⟩
    have hlt : rec_2_get_field_end_info_low mem rec m < 2 ^ 32 :=
      lt_trans (rec_2_end_info_lt mem rec m) (by decide)
    have e1 : REC_2BYTE_SQL_NULL_MASK = 2 ^ 15 := by decide
    have e2 : REC_2BYTE_EXTERN_MASK = 2 ^ 14 := by decide
    rw [testBit_and_mask_not _ _ _ hlt, e1, e2, Nat.testBit_or, Nat.testBit_two_pow,
      Nat.testBit_two_pow]
    by_cases h15 : k = 15
    · subst h15; simp
    · by_cases h14 : k = 14
      · subst h14; simp
      · have a : ¬ 15 = k := fun h => h15 h.symm
        have b : ¬ 14 = k := fun h => h14 h.symm
        simp [h15, h14, a, b]

/-- Instance of C5: field 2 of the 1-byte example record starts at 5, the
end-info 5|NULL of field 1 with the NULL flag cleared; the end of the 2-byte
example record is 9, the end-info 9|EXTERN of field 2 with the flags
cleared. -/
theorem rec_get_field_start_offs_low_prev_end_witness :
    rec_1_get_field_end_info_low example_rec_1byte 16 1 = 0x85 ∧
    rec_get_field_start_offs_low example_rec_1byte 16 2 = 5 ∧
    rec_2_get_field_end_info_low example_rec_2byte 16 2 = 0x4009 ∧
    rec_get_field_start_offs_low example_rec_2byte 16 3 = 9 ∧
    (rec_get_field_start_offs_low example_rec_1byte 16 2 =
        rec_1_get_field_end_info_low example_rec_1byte 16 (2 - 1) &&&
          mask_not REC_1BYTE_SQL_NULL_MASK ∧
      ∀ k, (rec_get_field_start_offs_low example_rec_1byte 16 2).testBit k =
        ((rec_1_get_field_end_info_low example_rec_1byte 16 (2 - 1)).testBit k &&
          decide (k ≠ 7))) ∧
    (rec_get_field_start_offs_low example_rec_2byte 16 3 =
        rec_2_get_field_end_info_low example_rec_2byte 16 (3 - 1) &&&
          mask_not (REC_2BYTE_SQL_NULL_MASK ||| REC_2BYTE_EXTERN_MASK) ∧
      ∀ k, (rec_get_field_start_offs_low example_rec_2byte 16 3).testBit k =
        ((rec_2_get_field_end_info_low example_rec_2byte 16 (3 - 1)).testBit k &&
          decide (k ≠ 15 ∧ k ≠ 14))) :=
  ⟨by decide, by decide, by decide, by decide,
    (rec_get_field_start_offs_low_prev_end example_rec_1byte 16 2 (by decide)
      (by decide)).2.1 (by decide),
    (rec_get_field_start_offs_low_prev_end example_rec_2byte 16 3 (by decide)
      (by decide)).2.2 (by decide)⟩

/-! ## The logical-index wrappers -/

/-- C6: when the index descriptor is null or its `has_row_versions()` is false,
every logical-index wrapper returns what its physical-index counterpart
returns for the same `n`. -/
theorem wrappers_identity_without_row_versions (index : Option dict_index_t)
    (h : ∀ ix, index = some ix → ix.has_row_versions = false)
    (mem : Mem) (rec : Int) (offsets : Offsets) (n : Nat) (data : Nat → byte)
    (len : Nat) :
    rec_get_nth_field_offs index offsets n = rec_get_nth_field_offs_low offsets n ∧
    rec_offs_nth_extern index offsets n = rec_offs_nth_extern_low offsets n ∧
    rec_offs_nth_sql_null index offsets n = rec_offs_nth_sql_null_low offsets n ∧
    rec_offs_nth_default index offsets n = rec_offs_nth_default_low offsets n ∧
    rec_offs_nth_size index offsets n = rec_offs_nth_size_low offsets n ∧
    rec_offs_make_nth_extern index offsets n = rec_offs_make_nth_extern_low offsets n ∧
    rec_set_nth_field index mem rec offsets n data len =
      rec_set_nth_field_low mem rec offsets n data len ∧
    rec_get_nth_field_offs_old index mem rec n = rec_get_nth_field_offs_old_low mem rec n ∧
    rec_get_nth_field_size index mem rec n = rec_get_nth_field_size_low mem rec n ∧
    rec_2_is_field_extern index mem rec n =
      rec_2_get_field_end_info_low mem rec n &&& REC_2BYTE_EXTERN_MASK := by
  cases index with
  | none => exact ⟨rfl, rfl, rfl, rfl, rfl, rfl, rfl, rfl, rfl, rfl⟩
  | some ix =>
    have hv : ix.has_row_versions = false := h ix rfl
    simp [rec_get_nth_field_offs, rec_offs_nth_extern, rec_offs_nth_sql_null,
      rec_offs_nth_default, rec_offs_nth_size, rec_offs_make_nth_extern, rec_set_nth_field,
      rec_get_nth_field_offs_old, rec_get_nth_field_size, rec_2_is_field_extern, hv]

/-- Instance of C6: a descriptor without row versions whose position maps are
not the identity. -/
theorem wrappers_identity_without_row_versions_witness :
    example_index_plain.get_field_off_pos 2 = 3 ∧
    (rec_get_nth_field_offs (some example_index_plain) example_offsets 2 =
      rec_get_nth_field_offs_low example_offsets 2 ∧
    rec_offs_nth_extern (some example_index_plain) example_offsets 2 =
      rec_offs_nth_extern_low example_offsets 2 ∧
    rec_offs_nth_sql_null (some example_index_plain) example_offsets 2 =
      rec_offs_nth_sql_null_low example_offsets 2 ∧
    rec_offs_nth_default (some example_index_plain) example_offsets 2 =
      rec_offs_nth_default_low example_offsets 2 ∧
    rec_offs_nth_size (some example_index_plain) example_offsets 2 =
      rec_offs_nth_size_low example_offsets 2 ∧
    rec_offs_make_nth_extern (some example_index_plain) example_offsets 2 =
      rec_offs_make_nth_extern_low example_offsets 2 ∧
    rec_set_nth_field (some example_index_plain) example_rec_2byte 16 example_offsets 2
        example_data 4 =
      rec_set_nth_field_low example_rec_2byte 16 example_offsets 2 example_data 4 ∧
    rec_get_nth_field_offs_old (some example_index_plain) example_rec_2byte 16 2 =
      rec_get_nth_field_offs_old_low example_rec_2byte 16 2 ∧
    rec_get_nth_field_size (some example_index_plain) example_rec_2byte 16 2 =
      rec_get_nth_field_size_low example_rec_2byte 16 2 ∧
    rec_2_is_field_extern (some example_index_plain) example_rec_2byte 16 2 =
      rec_2_get_field_end_info_low example_rec_2byte 16 2 &&& REC_2BYTE_EXTERN_MASK) :=
  ⟨rfl, wrappers_identity_without_row_versions (some example_index_plain)
    (fun ix hix => by cases hix; rfl) example_rec_2byte 16 example_offsets 2 example_data 4⟩

/-! ## Writes to the inline header -/

theorem to_byte_val (n : Nat) : (to_byte n).val = n % 256 := rfl

/-- The flags and the field count of the fixed header depend only on the six
bytes before the origin. -/
theorem fixed_header_congr (mem mem1 : Mem) (rec : Int)
    (h : ∀ a, rec - 6 ≤ a → a < rec → mem1 a = mem a) :
    rec_old_is_versioned mem1 rec = rec_old_is_versioned mem rec ∧
    rec_get_1byte_offs_flag mem1 rec = rec_get_1byte_offs_flag mem rec ∧
    rec_get_n_fields_old_raw mem1 rec = rec_get_n_fields_old_raw mem rec := by
  have h6 : mem1 (rec - ((6 : Nat) : Int)) = mem (rec - ((6 : Nat) : Int)) :=
    h _ (by omega) (by omega)
  have h3 : mem1 (rec - ((3 : Nat) : Int)) = mem (rec - ((3 : Nat) : Int)) :=
    h _ (by omega) (by omega)
  have h4 : mem1 (rec - ((4 : Nat) : Int)) = mem (rec - ((4 : Nat) : Int)) :=
    h _ (by omega) (by omega)
  have h4' : mem1 (rec - ((4 : Nat) : Int) + 1) = mem (rec - ((4 : Nat) : Int) + 1) :=
    h _ (by omega) (by omega)
  refine ⟨?_, ?_, ?_⟩
  · unfold rec_old_is_versioned rec_get_bit_field_1 mach_read_from_1
    rw [h6]
  · unfold rec_get_1byte_offs_flag rec_get_bit_field_1 mach_read_from_1
    rw [h3]
  · unfold rec_get_n_fields_old_raw rec_get_bit_field_2 mach_read_from_2
    rw [h4, h4']

theorem rec_1_get_field_end_info_low_eq (mem : Mem) (rec : Int) (n : Nat) :
    rec_1_get_field_end_info_low mem rec n =
      (mem (rec - ((REC_N_OLD_EXTRA_BYTES + (if rec_old_is_versioned mem rec then 1 else 0)
        + n + 1 : Nat) : Int))).val := rfl

theorem rec_2_get_field_end_info_low_eq (mem : Mem) (rec : Int) (n : Nat) :
    rec_2_get_field_end_info_low mem rec n =
      (mem (rec - ((REC_N_OLD_EXTRA_BYTES + (if rec_old_is_versioned mem rec then 1 else 0)
        + 2 * n + 2 : Nat) : Int))).val * 256 +
      (mem (rec - ((REC_N_OLD_EXTRA_BYTES + (if rec_old_is_versioned mem rec then 1 else 0)
        + 2 * n + 2 : Nat) : Int) + 1)).val :=
  mach_read_from_2_eq mem _

/-- Every read of the inline header depends only on the bytes before the
origin. -/
theorem header_reads_congr (mem mem1 : Mem) (rec : Int)
    (h : ∀ a, a < rec → mem1 a = mem a) (n : Nat) :
    rec_1_get_field_end_info_low mem1 rec n = rec_1_get_field_end_info_low mem rec n ∧
    rec_2_get_field_end_info_low mem1 rec n = rec_2_get_field_end_info_low mem rec n ∧
    rec_get_field_start_offs_low mem1 rec n = rec_get_field_start_offs_low mem rec n := by
  obtain ⟨hv, hw, _⟩ := fixed_header_congr mem mem1 rec (fun a _ ha => h a ha)
  have e1 : ∀ m, rec_1_get_field_end_info_low mem1 rec m =
      rec_1_get_field_end_info_low mem rec m := by
    intro m
    rw [rec_1_get_field_end_info_low_eq, rec_1_get_field_end_info_low_eq, hv]
    congr 1
    apply h
    unfold REC_N_OLD_EXTRA_BYTES; omega
  have e2 : ∀ m, rec_2_get_field_end_info_low mem1 rec m =
      rec_2_get_field_end_info_low mem rec m := by
    intro m
    rw [rec_2_get_field_end_info_low_eq, rec_2_get_field_end_info_low_eq, hv]
    congr 2
    · congr 1
      apply h
      unfold REC_N_OLD_EXTRA_BYTES; omega
    · apply h
      unfold REC_N_OLD_EXTRA_BYTES; omega
  refine ⟨e1 n, e2 n, ?_⟩
  cases n with
  | zero => rfl
  | succ m => rw [rec_start_succ, rec_start_succ, hw, e1, e2]

theorem data_write_sql_null_below (mem : Mem) (rec : Int) (offset len : Nat) (a : Int)
    (ha : a < rec) : data_write_sql_null mem (rec + offset) len a = mem a := by
  unfold data_write_sql_null
  have h : ¬ (rec + (offset : Int) ≤ a ∧ a < rec + (offset : Int) + (len : Int)) := by omega
  simp [h]

theorem data_write_sql_null_inside (mem : Mem) (data : Int) (len i : Nat) (hi : i < len) :
    data_write_sql_null mem data len (data + i) = 0 := by
  unfold data_write_sql_null
  have h : data ≤ data + (i : Int) ∧ data + (i : Int) < data + (len : Int) := by omega
  simp [h]

theorem rec_1_set_field_end_info_low_apply (mem : Mem) (rec : Int) (n info : Nat) (a : Int) :
    rec_1_set_field_end_info_low mem rec n info a =
      if a = rec - ((REC_N_OLD_EXTRA_BYTES + (if rec_old_is_versioned mem rec then 1 else 0)
          + n + 1 : Nat) : Int) then to_byte info else mem a := rfl

theorem rec_2_set_field_end_info_low_apply (mem : Mem) (rec : Int) (n info : Nat) (a : Int) :
    rec_2_set_field_end_info_low mem rec n info a =
      if a = rec - ((REC_N_OLD_EXTRA_BYTES + (if rec_old_is_versioned mem rec then 1 else 0)
          + 2 * n + 2 : Nat) : Int) then to_byte (info >>> 8)
      else if a = rec - ((REC_N_OLD_EXTRA_BYTES +
          (if rec_old_is_versioned mem rec then 1 else 0) + 2 * n + 2 : Nat) : Int) + 1 then
        to_byte info
      else mem a := rfl

/-- A 1-byte end-info write leaves every byte from the fixed header on
unchanged. -/
theorem rec_1_set_field_end_info_low_frame (mem : Mem) (rec : Int) (n info : Nat) (a : Int)
    (ha : rec - 6 ≤ a) : rec_1_set_field_end_info_low mem rec n info a = mem a := by
  rw [rec_1_set_field_end_info_low_apply]
  have : ¬ a = rec - ((REC_N_OLD_EXTRA_BYTES + (if rec_old_is_versioned mem rec then 1 else 0)
      + n + 1 : Nat) : Int) := by
    unfold REC_N_OLD_EXTRA_BYTES; omega
  rw [if_neg this]

/-- A 2-byte end-info write leaves every byte from the fixed header on
unchanged. -/
theorem rec_2_set_field_end_info_low_frame (mem : Mem) (rec : Int) (n info : Nat) (a : Int)
    (ha : rec - 6 ≤ a) : rec_2_set_field_end_info_low mem rec n info a = mem a := by
  rw [rec_2_set_field_end_info_low_apply]
  have h1 : ¬ a = rec - ((REC_N_OLD_EXTRA_BYTES +
      (if rec_old_is_versioned mem rec then 1 else 0) + 2 * n + 2 : Nat) : Int) := by
    unfold REC_N_OLD_EXTRA_BYTES; omega
  have h2 : ¬ a = rec - ((REC_N_OLD_EXTRA_BYTES +
      (if rec_old_is_versioned mem rec then 1 else 0) + 2 * n + 2 : Nat) : Int) + 1 := by
    unfold REC_N_OLD_EXTRA_BYTES; omega
  rw [if_neg h1, if_neg h2]

theorem rec_1_set_get (mem : Mem) (rec : Int) (n info : Nat) :
    rec_1_get_field_end_info_low (rec_1_set_field_end_info_low mem rec n info) rec n =
      info % 256 := by
  obtain ⟨hv, _, _⟩ := fixed_header_congr mem (rec_1_set_field_end_info_low mem rec n info) rec
    (fun a ha _ => rec_1_set_field_end_info_low_frame mem rec n info a ha)
  rw [rec_1_get_field_end_info_low_eq, hv, rec_1_set_field_end_info_low_apply, if_pos rfl,
    to_byte_val]

theorem rec_2_set_get (mem : Mem) (rec : Int) (n info : Nat) :
    rec_2_get_field_end_info_low (rec_2_set_field_end_info_low mem rec n info) rec n =
      info % 65536 := by
  obtain ⟨hv, _, _⟩ := fixed_header_congr mem (rec_2_set_field_end_info_low mem rec n info) rec
    (fun a ha _ => rec_2_set_field_end_info_low_frame mem rec n info a ha)
  rw [rec_2_get_field_end_info_low_eq, hv,
    rec_2_set_field_end_info_low_apply, if_pos rfl, rec_2_set_field_end_info_low_apply,
    if_neg (by omega), if_pos rfl, to_byte_val, to_byte_val, Nat.shiftRight_eq_div_pow]
  omega

/-- C10: after `rec_1_set_field_end_info_low(rec, n, info)` with `info < 2^8`
the 1-byte end-info of field `n` reads back as `info`, and after
`rec_2_set_field_end_info_low(rec, n, info)` with `info < 2^16` the 2-byte
end-info of field `n` reads back as `info`; the record may or may not carry a
row-version byte. -/
theorem rec_set_get_field_end_info_low (mem : Mem) (rec : Int) (n info : Nat)
    (_hn : n < rec_get_n_fields_old_raw mem rec) :
    (info < 2 ^ 8 →
      rec_1_get_field_end_info_low (rec_1_set_field_end_info_low mem rec n info) rec n =
        info) ∧
    (info < 2 ^ 16 →
      rec_2_get_field_end_info_low (rec_2_set_field_end_info_low mem rec n info) rec n =
        info) := by
  refine ⟨fun h => ?_, fun h => ?_⟩
  · rw [rec_1_set_get]; omega
  · rw [rec_2_set_get]; omega

/-- Instance of C10: slot 1 of the 1-byte example record and slot 1 of the
2-byte example record. -/
theorem rec_set_get_field_end_info_low_witness :
    rec_1_get_field_end_info_low
      (rec_1_set_field_end_info_low example_rec_1byte 16 1 0x23) 16 1 = 0x23 ∧
    rec_2_get_field_end_info_low
      (rec_2_set_field_end_info_low example_rec_2byte 16 1 0x4123) 16 1 = 0x4123 :=
  ⟨(rec_set_get_field_end_info_low example_rec_1byte 16 1 0x23 (by decide)).1 (by decide),
    (rec_set_get_field_end_info_low example_rec_2byte 16 1 0x4123 (by decide)).2 (by decide)⟩

theorem rec_set_nth_field_null_bit_low_eq (mem : Mem) (rec : Int) (i : Nat) (val : Bool) :
    rec_set_nth_field_null_bit_low mem rec i val =
      if rec_get_1byte_offs_flag mem rec then
        rec_1_set_field_end_info_low mem rec i
          (if val then rec_1_get_field_end_info_low mem rec i ||| REC_1BYTE_SQL_NULL_MASK
           else rec_1_get_field_end_info_low mem rec i &&& mask_not REC_1BYTE_SQL_NULL_MASK)
      else
        rec_2_set_field_end_info_low mem rec i
          (if val then rec_2_get_field_end_info_low mem rec i ||| REC_2BYTE_SQL_NULL_MASK
           else rec_2_get_field_end_info_low mem rec i &&& mask_not REC_2BYTE_SQL_NULL_MASK) :=
  rfl

/-- Setting the NULL bit leaves every byte from the fixed header on unchanged. -/
theorem rec_set_nth_field_null_bit_low_frame (mem : Mem) (rec : Int) (i : Nat) (val : Bool)
    (a : Int) (ha : rec - 6 ≤ a) : rec_set_nth_field_null_bit_low mem rec i val a = mem a := by
  rw [rec_set_nth_field_null_bit_low_eq]
  split
  · exact rec_1_set_field_end_info_low_frame mem rec i _ a ha
  · exact rec_2_set_field_end_info_low_frame mem rec i _ a ha

theorem null_bit_1_testBit (x : Nat) (hx : x < 256) (val : Bool) (k : Nat) :
    ((if val then x ||| REC_1BYTE_SQL_NULL_MASK
      else x &&& mask_not REC_1BYTE_SQL_NULL_MASK) % 256).testBit k =
      if k = 7 then val else x.testBit k := by
  have e : REC_1BYTE_SQL_NULL_MASK = 2 ^ 7 := by decide
  have hx32 : x < 2 ^ 32 := lt_trans hx (by decide)
  have e256 : (256 : Nat) = 2 ^ 8 := by decide
  have hhigh : ∀ j, 8 ≤ j → x.testBit j = false := fun j hj => testBit_of_lt x j 8 hx hj
  rw [e256, Nat.testBit_mod_two_pow]
  cases val with
  | true =>
    simp only [if_true, Nat.testBit_or, e, Nat.testBit_two_pow]
    by_cases h7 : k = 7
    · subst h7; simp
    · by_cases h8 : k < 8
      · have : ¬ 7 = k := fun h => h7 h.symm
        simp [h7, h8, this]
      · have := hhigh k (by omega)
        simp [h7, h8, this]
  | false =>
    simp only [Bool.false_eq_true, if_false, testBit_and_mask_not _ _ _ hx32, e,
      Nat.testBit_two_pow]
    by_cases h7 : k = 7
    · subst h7; simp
    · by_cases h8 : k < 8
      · have : ¬ 7 = k := fun h => h7 h.symm
        simp [h7, h8, this]
      · have := hhigh k (by omega)
        simp [h7, h8, this]

theorem null_bit_2_testBit (x : Nat) (hx : x < 65536) (val : Bool) (k : Nat) :
    ((if val then x ||| REC_2BYTE_SQL_NULL_MASK
      else x &&& mask_not REC_2BYTE_SQL_NULL_MASK) % 65536).testBit k =
      if k = 15 then val else x.testBit k := by
  have e : REC_2BYTE_SQL_NULL_MASK = 2 ^ 15 := by decide
  have hx32 : x < 2 ^ 32 := lt_trans hx (by decide)
  have e16 : (65536 : Nat) = 2 ^ 16 := by decide
  have hhigh : ∀ j, 16 ≤ j → x.testBit j = false := fun j hj => testBit_of_lt x j 16 hx hj
  rw [e16, Nat.testBit_mod_two_pow]
  cases val with
  | true =>
    simp only [if_true, Nat.testBit_or, e, Nat.testBit_two_pow]
    by_cases h15 : k = 15
    · subst h15; simp
    · by_cases h16 : k < 16
      · have : ¬ 15 = k := fun h => h15 h.symm
        simp [h15, h16, this]
      · have := hhigh k (by omega)
        simp [h15, h16, this]
  | false =>
    simp only [Bool.false_eq_true, if_false, testBit_and_mask_not _ _ _ hx32, e,
      Nat.testBit_two_pow]
    by_cases h15 : k = 15
    · subst h15; simp
    · by_cases h16 : k < 16
      · have : ¬ 15 = k := fun h => h15 h.symm
        simp [h15, h16, this]
      · have := hhigh k (by omega)
        simp [h15, h16, this]

theorem null_bit_low_1_testBit (mem : Mem) (rec : Int) (i : Nat) (val : Bool)
    (hw : rec_get_1byte_offs_flag mem rec = true) (k : Nat) :
    (rec_1_get_field_end_info_low (rec_set_nth_field_null_bit_low mem rec i val) rec
        i).testBit k =
      if k = 7 then val else (rec_1_get_field_end_info_low mem rec i).testBit k := by
  rw [rec_set_nth_field_null_bit_low_eq, if_pos hw, rec_1_set_get]
  exact null_bit_1_testBit _ (rec_1_end_info_lt mem rec i) val k

theorem null_bit_low_2_testBit (mem : Mem) (rec : Int) (i : Nat) (val : Bool)
    (hw : rec_get_1byte_offs_flag mem rec = false) (k : Nat) :
    (rec_2_get_field_end_info_low (rec_set_nth_field_null_bit_low mem rec i val) rec
        i).testBit k =
      if k = 15 then val else (rec_2_get_field_end_info_low mem rec i).testBit k := by
  rw [rec_set_nth_field_null_bit_low_eq, if_neg (by simp [hw]), rec_2_set_get]
  exact null_bit_2_testBit _ (rec_2_end_info_lt mem rec i) val k

/-- C9: after `rec_set_nth_field_null_bit_low(rec, i, val)` with
`i < n_fields`, the end-info word of field `i` has its NULL flag bit (bit 7 in
1-byte form, bit 15 in 2-byte form) equal to `val` and every other bit, the
offset bits and in 2-byte form the EXTERN flag, as before the call; the slot
width of the record is unchanged. -/
theorem rec_set_nth_field_null_bit_low_only_null_flag (mem : Mem) (rec : Int) (i : Nat)
    (val : Bool) (_hi : i < rec_get_n_fields_old_raw mem rec) :
    rec_get_1byte_offs_flag (rec_set_nth_field_null_bit_low mem rec i val) rec =
      rec_get_1byte_offs_flag mem rec ∧
    (rec_get_1byte_offs_flag mem rec = true →
      ∀ k, (rec_1_get_field_end_info_low (rec_set_nth_field_null_bit_low mem rec i val) rec
          i).testBit k =
        if k = 7 then val else (rec_1_get_field_end_info_low mem rec i).testBit k) ∧
    (rec_get_1byte_offs_flag mem rec = false →
      ∀ k, (rec_2_get_field_end_info_low (rec_set_nth_field_null_bit_low mem rec i val) rec
          i).testBit k =
        if k = 15 then val else (rec_2_get_field_end_info_low mem rec i).testBit k) :=
  ⟨(fixed_header_congr mem _ rec
      (fun a ha _ => rec_set_nth_field_null_bit_low_frame mem rec i val a ha)).2.1,
    fun hw k => null_bit_low_1_testBit mem rec i val hw k,
    fun hw k => null_bit_low_2_testBit mem rec i val hw k⟩

/-- Instance of C9: clearing the NULL bit of field 1 of the 1-byte example
record turns its end-info 5|NULL into 5, and setting the NULL bit of field 2 of
the 2-byte example record turns 9|EXTERN into 9|EXTERN|NULL. -/
theorem rec_set_nth_field_null_bit_low_only_null_flag_witness :
    rec_1_get_field_end_info_low
      (rec_set_nth_field_null_bit_low example_rec_1byte 16 1 false) 16 1 = 5 ∧
    rec_2_get_field_end_info_low
      (rec_set_nth_field_null_bit_low example_rec_2byte 16 2 true) 16 2 = 0xC009 ∧
    (∀ k, (rec_1_get_field_end_info_low
        (rec_set_nth_field_null_bit_low example_rec_1byte 16 1 false) 16 1).testBit k =
      if k = 7 then false
      else (rec_1_get_field_end_info_low example_rec_1byte 16 1).testBit k) ∧
    (∀ k, (rec_2_get_field_end_info_low
        (rec_set_nth_field_null_bit_low example_rec_2byte 16 2 true) 16 2).testBit k =
      if k = 15 then true
      else (rec_2_get_field_end_info_low example_rec_2byte 16 2).testBit k) :=
  ⟨by decide, by decide,
    (rec_set_nth_field_null_bit_low_only_null_flag example_rec_1byte 16 1 false
      (by decide)).2.1 (by decide),
    (rec_set_nth_field_null_bit_low_only_null_flag example_rec_2byte 16 2 true
      (by decide)).2.2 (by decide)⟩

/-- A 1-byte end-info write leaves the end-info of every other field
unchanged. -/
theorem rec_1_set_get_other (mem : Mem) (rec : Int) (n m info : Nat) (h : m ≠ n) :
    rec_1_get_field_end_info_low (rec_1_set_field_end_info_low mem rec n info) rec m =
      rec_1_get_field_end_info_low mem rec m := by
  obtain ⟨hv, _, _⟩ := fixed_header_congr mem (rec_1_set_field_end_info_low mem rec n info) rec
    (fun a ha _ => rec_1_set_field_end_info_low_frame mem rec n info a ha)
  have hne : ¬ rec - ((REC_N_OLD_EXTRA_BYTES + (if rec_old_is_versioned mem rec then 1 else 0)
      + m + 1 : Nat) : Int) = rec - ((REC_N_OLD_EXTRA_BYTES +
      (if rec_old_is_versioned mem rec then 1 else 0) + n + 1 : Nat) : Int) := by
    omega
  rw [rec_1_get_field_end_info_low_eq, hv, rec_1_set_field_end_info_low_apply, if_neg hne,
    rec_1_get_field_end_info_low_eq]

/-- A 2-byte end-info write leaves the end-info of every other field
unchanged. -/
theorem rec_2_set_get_other (mem : Mem) (rec : Int) (n m info : Nat) (h : m ≠ n) :
    rec_2_get_field_end_info_low (rec_2_set_field_end_info_low mem rec n info) rec m =
      rec_2_get_field_end_info_low mem rec m := by
  obtain ⟨hv, _, _⟩ := fixed_header_congr mem (rec_2_set_field_end_info_low mem rec n info) rec
    (fun a ha _ => rec_2_set_field_end_info_low_frame mem rec n info a ha)
  have h1 : ¬ rec - ((REC_N_OLD_EXTRA_BYTES + (if rec_old_is_versioned mem rec then 1 else 0)
      + 2 * m + 2 : Nat) : Int) = rec - ((REC_N_OLD_EXTRA_BYTES +
      (if rec_old_is_versioned mem rec then 1 else 0) + 2 * n + 2 : Nat) : Int) := by
    omega
  have h2 : ¬ rec - ((REC_N_OLD_EXTRA_BYTES + (if rec_old_is_versioned mem rec then 1 else 0)
      + 2 * m + 2 : Nat) : Int) = rec - ((REC_N_OLD_EXTRA_BYTES +
      (if rec_old_is_versioned mem rec then 1 else 0) + 2 * n + 2 : Nat) : Int) + 1 := by
    omega
  have h3 : ¬ rec - ((REC_N_OLD_EXTRA_BYTES + (if rec_old_is_versioned mem rec then 1 else 0)
      + 2 * m + 2 : Nat) : Int) + 1 = rec - ((REC_N_OLD_EXTRA_BYTES +
      (if rec_old_is_versioned mem rec then 1 else 0) + 2 * n + 2 : Nat) : Int) := by
    omega
  have h4 : ¬ rec - ((REC_N_OLD_EXTRA_BYTES + (if rec_old_is_versioned mem rec then 1 else 0)
      + 2 * m + 2 : Nat) : Int) + 1 = rec - ((REC_N_OLD_EXTRA_BYTES +
      (if rec_old_is_versioned mem rec then 1 else 0) + 2 * n + 2 : Nat) : Int) + 1 := by
    omega
  rw [rec_2_get_field_end_info_low_eq, hv, rec_2_set_field_end_info_low_apply, if_neg h1,
    if_neg h2, rec_2_set_field_end_info_low_apply, if_neg h3, if_neg h4,
    rec_2_get_field_end_info_low_eq]

/-- Setting the NULL bit of field `i` leaves the end-info of every other field
unchanged, read in the slot width of the record. -/
theorem null_bit_low_get_other (mem : Mem) (rec : Int) (i m : Nat) (val : Bool) (h : m ≠ i) :
    (rec_get_1byte_offs_flag mem rec = true →
      rec_1_get_field_end_info_low (rec_set_nth_field_null_bit_low mem rec i val) rec m =
        rec_1_get_field_end_info_low mem rec m) ∧
    (rec_get_1byte_offs_flag mem rec = false →
      rec_2_get_field_end_info_low (rec_set_nth_field_null_bit_low mem rec i val) rec m =
        rec_2_get_field_end_info_low mem rec m) := by
  rw [rec_set_nth_field_null_bit_low_eq]
  refine ⟨fun hw => ?_, fun hw => ?_⟩
  · rw [if_pos hw]; exact rec_1_set_get_other mem rec i m _ h
  · rw [if_neg (by simp [hw])]; exact rec_2_set_get_other mem rec i m _ h

/-- What `rec_set_nth_field_sql_null_low(rec, p)` does: the fixed header is
unchanged, the NULL flag of slot `p` is set, the bytes of the field are zero,
and the field starts where it started. -/
theorem rec_set_nth_field_sql_null_low_effect (mem : Mem) (rec : Int) (p : Nat) :
    (∀ a, rec - 6 ≤ a → a < rec → rec_set_nth_field_sql_null_low mem rec p a = mem a) ∧
    (if rec_get_1byte_offs_flag (rec_set_nth_field_sql_null_low mem rec p) rec then
        rec_1_get_field_end_info_low (rec_set_nth_field_sql_null_low mem rec p) rec p &&&
          REC_1BYTE_SQL_NULL_MASK
      else
        rec_2_get_field_end_info_low (rec_set_nth_field_sql_null_low mem rec p) rec p &&&
          REC_2BYTE_SQL_NULL_MASK) ≠ 0 ∧
    (∀ i, i < rec_get_nth_field_size_low mem rec p →
      rec_set_nth_field_sql_null_low mem rec p
        (rec + rec_get_field_start_offs_low mem rec p + i) = 0) ∧
    rec_get_field_start_offs_low (rec_set_nth_field_sql_null_low mem rec p) rec p =
      rec_get_field_start_offs_low mem rec p ∧
    (∀ m, m ≠ p →
      (if rec_get_1byte_offs_flag (rec_set_nth_field_sql_null_low mem rec p) rec then
        rec_1_get_field_end_info_low (rec_set_nth_field_sql_null_low mem rec p) rec m
      else rec_2_get_field_end_info_low (rec_set_nth_field_sql_null_low mem rec p) rec m) =
      (if rec_get_1byte_offs_flag mem rec then rec_1_get_field_end_info_low mem rec m
      else rec_2_get_field_end_info_low mem rec m)) := by
  have hdef : rec_set_nth_field_sql_null_low mem rec p =
      rec_set_nth_field_null_bit_low
        (data_write_sql_null mem (rec + rec_get_field_start_offs_low mem rec p)
          (rec_get_nth_field_size_low mem rec p)) rec p true := rfl
  generalize hm1 : data_write_sql_null mem (rec + rec_get_field_start_offs_low mem rec p)
    (rec_get_nth_field_size_low mem rec p) = mem1 at hdef
  have hbelow : ∀ a, a < rec → mem1 a = mem a := by
    intro a ha
    rw [← hm1]
    exact data_write_sql_null_below mem rec _ _ a ha
  have hframe : ∀ a, rec - 6 ≤ a → rec_set_nth_field_sql_null_low mem rec p a = mem1 a := by
    intro a ha
    rw [hdef]
    exact rec_set_nth_field_null_bit_low_frame mem1 rec p true a ha
  have hfix : ∀ a, rec - 6 ≤ a → a < rec → rec_set_nth_field_sql_null_low mem rec p a = mem a :=
    fun a ha hb => (hframe a ha).trans (hbelow a hb)
  obtain ⟨_, hw1, _⟩ := fixed_header_congr mem1 (rec_set_nth_field_sql_null_low mem rec p) rec
    (fun a ha _ => hframe a ha)
  obtain ⟨_, hw0, _⟩ := fixed_header_congr mem mem1 rec (fun a _ ha => hbelow a ha)
  refine ⟨hfix, ?_, ?_, ?_, ?_⟩
  rotate_right
  · intro m hm
    have hother := null_bit_low_get_other mem1 rec p m true hm
    rw [← hdef] at hother
    have hr := header_reads_congr mem mem1 rec hbelow m
    rw [hw1, ← hw0]
    by_cases hw : rec_get_1byte_offs_flag mem1 rec = true
    · rw [if_pos hw, if_pos hw, hother.1 hw, hr.1]
    · have hw2 : rec_get_1byte_offs_flag mem1 rec = false := by simpa using hw
      rw [if_neg hw, if_neg hw, hother.2 hw2, hr.2.1]
  · rw [hw1]
    by_cases hw : rec_get_1byte_offs_flag mem1 rec = true
    · rw [if_pos hw]
      have e : REC_1BYTE_SQL_NULL_MASK = 2 ^ 7 := by decide
      rw [e, and_two_pow_ne_zero_iff, hdef, null_bit_low_1_testBit mem1 rec p true hw]
      simp
    · rw [if_neg hw]
      have hw2 : rec_get_1byte_offs_flag mem1 rec = false := by simpa using hw
      have e : REC_2BYTE_SQL_NULL_MASK = 2 ^ 15 := by decide
      rw [e, and_two_pow_ne_zero_iff, hdef, null_bit_low_2_testBit mem1 rec p true hw2]
      simp
  · intro i hi
    rw [hframe _ (by omega), ← hm1]
    exact data_write_sql_null_inside mem _ _ i hi
  · cases p with
    | zero => rfl
    | succ m =>
      have hother := null_bit_low_get_other mem1 rec (m + 1) m true (by omega)
      rw [← hdef] at hother
      rw [rec_start_succ, hw1, ← (header_reads_congr mem mem1 rec hbelow (m + 1)).2.2,
        rec_start_succ]
      by_cases hw : rec_get_1byte_offs_flag mem1 rec = true
      · rw [if_pos hw, if_pos hw, hother.1 hw]
      · have hw2 : rec_get_1byte_offs_flag mem1 rec = false := by simpa using hw
        rw [if_neg hw, if_neg hw, hother.2 hw2]

/-- The loop `fn` counts the DROPPED entries below `n1`. -/
theorem fn_eq_n_dropped_below (offsets : Offsets) (n : Nat) :
    fn offsets n = n_dropped_below offsets n := by
  unfold fn n_dropped_below
  induction n with
  | zero => rfl
  | succ k ih =>
    rw [List.range_succ, List.foldl_append, List.filter_append, List.length_append, ih]
    by_cases h : rec_offs_base offsets (1 + k) &&& REC_OFFS_DROP = 0
    · simp [h]
    · simp [h]

theorem n_dropped_below_le (offsets : Offsets) (n : Nat) : n_dropped_below offsets n ≤ n := by
  unfold n_dropped_below
  exact (List.length_filter_le _ _).trans (by simp)

/-- Writing NULL through `rec_set_nth_field_low` sets field `p` of the inline
header to SQL NULL, where `p` is `n` minus the number of offsets entries at an
index below `n` that carry the DROPPED flag for a versioned record, and `n`
itself for a non-versioned record. -/
theorem null_write_slot_below (mem : Mem) (rec : Int) (offsets : Offsets)
    (n : Nat) (data : Nat → byte)
    (hold : rec_offs_comp offsets = false)
    (hnn : rec_offs_nth_sql_null_low offsets n = 0) :
    ∃ p mem1,
      p = (if rec_old_is_versioned mem rec then n - n_dropped_below offsets n else n) ∧
      rec_set_nth_field_low mem rec offsets n data UNIV_SQL_NULL = some mem1 ∧
      mem1 = rec_set_nth_field_sql_null_low mem rec p ∧
      (if rec_get_1byte_offs_flag mem1 rec then
          rec_1_get_field_end_info_low mem1 rec p &&& REC_1BYTE_SQL_NULL_MASK
        else rec_2_get_field_end_info_low mem1 rec p &&& REC_2BYTE_SQL_NULL_MASK) ≠ 0 ∧
      (∀ m, m ≠ p →
        (if rec_get_1byte_offs_flag mem1 rec then rec_1_get_field_end_info_low mem1 rec m
          else rec_2_get_field_end_info_low mem1 rec m) =
        (if rec_get_1byte_offs_flag mem rec then rec_1_get_field_end_info_low mem rec m
          else rec_2_get_field_end_info_low mem rec m)) ∧
      (∀ i, i < rec_get_nth_field_size_low mem rec p →
        mem1 (rec + rec_get_field_start_offs_low mem rec p + i) = 0) := by
  obtain ⟨_, hflag, hbytes, _, hother⟩ := rec_set_nth_field_sql_null_low_effect mem rec
    (if rec_old_is_versioned mem rec then n - n_dropped_below offsets n else n)
  refine ⟨_, _, rfl, ?_, rfl, hflag, hother, hbytes⟩
  unfold rec_set_nth_field_low
  rw [if_pos rfl, if_pos hnn, hold, fn_eq_n_dropped_below]
  by_cases hv : rec_old_is_versioned mem rec = true
  · simp [hv]
  · simp [hv]

/-- When entry `n` itself does not carry the DROPPED flag, the DROPPED entries
at an index up to and including `n` are the DROPPED entries below `n`. -/
theorem n_dropped_upto_of_stored (offsets : Offsets) (n : Nat)
    (hstored : rec_offs_base offsets (1 + n) &&& REC_OFFS_DROP = 0) :
    n_dropped_upto offsets n = n_dropped_below offsets n := by
  unfold n_dropped_upto n_dropped_below
  rw [List.range_succ, List.filter_append, List.length_append]
  simp [hstored]

/-- C7: when `rec_set_nth_field_low` is called with `len = UNIV_SQL_NULL` on an
old-style record whose offsets entry for field `n` is not already NULL, `n`
being a field the record stores (its own entry is not a DROPPED placeholder),
the header slot whose NULL flag gets set, and whose data bytes get the NULL
pattern, is for a versioned record `n` minus the number of offsets entries at
an index up to and including `n` that carry the DROPPED flag, which is the
number the loop `fn` counts, and for a non-versioned record slot `n` itself;
the end-info of every other slot is unchanged. -/
theorem rec_set_nth_field_low_null_slot (mem : Mem) (rec : Int) (offsets : Offsets)
    (n : Nat) (data : Nat → byte)
    (hold : rec_offs_comp offsets = false)
    (hnn : rec_offs_nth_sql_null_low offsets n = 0)
    (hstored : rec_offs_base offsets (1 + n) &&& REC_OFFS_DROP = 0) :
    fn offsets n = n_dropped_upto offsets n ∧
    ∃ p mem1,
      p = (if rec_old_is_versioned mem rec then n - n_dropped_upto offsets n else n) ∧
      rec_set_nth_field_low mem rec offsets n data UNIV_SQL_NULL = some mem1 ∧
      mem1 = rec_set_nth_field_sql_null_low mem rec p ∧
      (if rec_get_1byte_offs_flag mem1 rec then
          rec_1_get_field_end_info_low mem1 rec p &&& REC_1BYTE_SQL_NULL_MASK
        else rec_2_get_field_end_info_low mem1 rec p &&& REC_2BYTE_SQL_NULL_MASK) ≠ 0 ∧
      (∀ m, m ≠ p →
        (if rec_get_1byte_offs_flag mem1 rec then rec_1_get_field_end_info_low mem1 rec m
          else rec_2_get_field_end_info_low mem1 rec m) =
        (if rec_get_1byte_offs_flag mem rec then rec_1_get_field_end_info_low mem rec m
          else rec_2_get_field_end_info_low mem rec m)) ∧
      (∀ i, i < rec_get_nth_field_size_low mem rec p →
        mem1 (rec + rec_get_field_start_offs_low mem rec p + i) = 0) := by
  have hup := n_dropped_upto_of_stored offsets n hstored
  refine ⟨by rw [fn_eq_n_dropped_below, hup], ?_⟩
  rw [hup]
  exact null_write_slot_below mem rec offsets n data hold hnn

/-- Instance of C7: field 2 of `example_offsets_dropped` is stored and follows
one DROPPED entry, so one entry up to and including 2 is DROPPED and the NULL
lands on header slot 1 of the versioned example record. -/
theorem rec_set_nth_field_low_null_slot_witness :
    n_dropped_upto example_offsets_dropped 2 = 1 ∧
    2 - n_dropped_upto example_offsets_dropped 2 = 1 ∧
    fn example_offsets_dropped 2 = n_dropped_upto example_offsets_dropped 2 ∧
    ∃ p mem1,
      p = (if rec_old_is_versioned example_rec_versioned 16 then
            2 - n_dropped_upto example_offsets_dropped 2 else 2) ∧
      rec_set_nth_field_low example_rec_versioned 16 example_offsets_dropped 2 example_data
        UNIV_SQL_NULL = some mem1 ∧
      mem1 = rec_set_nth_field_sql_null_low example_rec_versioned 16 p ∧
      (if rec_get_1byte_offs_flag mem1 16 then
          rec_1_get_field_end_info_low mem1 16 p &&& REC_1BYTE_SQL_NULL_MASK
        else rec_2_get_field_end_info_low mem1 16 p &&& REC_2BYTE_SQL_NULL_MASK) ≠ 0 ∧
      (∀ m, m ≠ p →
        (if rec_get_1byte_offs_flag mem1 16 then rec_1_get_field_end_info_low mem1 16 m
          else rec_2_get_field_end_info_low mem1 16 m) =
        (if rec_get_1byte_offs_flag example_rec_versioned 16 then
            rec_1_get_field_end_info_low example_rec_versioned 16 m
          else rec_2_get_field_end_info_low example_rec_versioned 16 m)) ∧
      (∀ i, i < rec_get_nth_field_size_low example_rec_versioned 16 p →
        mem1 (16 + rec_get_field_start_offs_low example_rec_versioned 16 p + i) = 0) :=
  ⟨by decide, by decide, rec_set_nth_field_low_null_slot example_rec_versioned 16
    example_offsets_dropped 2 example_data (by decide) (by decide) (by decide)⟩

/-- C8 (amended): for an old-style record and an offsets array in which field
`n` is not NULL, after `rec_set_nth_field_low(rec, offsets, n, data,
UNIV_SQL_NULL)` the inline header reports the field as SQL NULL:
`rec_get_nth_field_offs_old_low` on header slot `p` (`n` minus the DROPPED
entries below `n` for a versioned record, else `n`), when `p < n_fields`,
returns the unchanged field start with length `UNIV_SQL_NULL`. The offsets
array is an input that the call does not write, so
`rec_offs_nth_sql_null_low(offsets, n)` is still 0. -/
theorem rec_set_nth_field_low_null_round_trip (mem : Mem) (rec : Int) (offsets : Offsets)
    (n : Nat) (data : Nat → byte)
    (hold : rec_offs_comp offsets = false)
    (hnn : rec_offs_nth_sql_null_low offsets n = 0)
    (hp : (if rec_old_is_versioned mem rec then n - n_dropped_below offsets n else n) <
      rec_get_n_fields_old_raw mem rec) :
    ∃ mem1,
      rec_set_nth_field_low mem rec offsets n data UNIV_SQL_NULL = some mem1 ∧
      rec_get_nth_field_offs_old_low mem1 rec
          (if rec_old_is_versioned mem rec then n - n_dropped_below offsets n else n) =
        some (rec_get_field_start_offs_low mem rec
          (if rec_old_is_versioned mem rec then n - n_dropped_below offsets n else n),
          UNIV_SQL_NULL) ∧
      rec_offs_nth_sql_null_low offsets n = 0 := by
  obtain ⟨hfix, hflag, _, hstart, _⟩ := rec_set_nth_field_sql_null_low_effect mem rec
    (if rec_old_is_versioned mem rec then n - n_dropped_below offsets n else n)
  obtain ⟨_, _, hnf⟩ := fixed_header_congr mem _ rec hfix
  refine ⟨rec_set_nth_field_sql_null_low mem rec
    (if rec_old_is_versioned mem rec then n - n_dropped_below offsets n else n), ?_, ?_, hnn⟩
  · unfold rec_set_nth_field_low
    rw [if_pos rfl, if_pos hnn, hold, fn_eq_n_dropped_below]
    by_cases hv : rec_old_is_versioned mem rec = true
    · simp [hv]
    · simp [hv]
  · rw [offs_old_low_eq _ rec _ (by rw [hnf]; exact hp), if_pos hflag, hstart]

/-- Instance of C8 (amended): NULL written to field 2 of
`example_offsets_dropped` shows in header slot 1 of the versioned example
record. -/
theorem rec_set_nth_field_low_null_round_trip_witness :
    ∃ mem1,
      rec_set_nth_field_low example_rec_versioned 16 example_offsets_dropped 2 example_data
        UNIV_SQL_NULL = some mem1 ∧
      rec_get_nth_field_offs_old_low mem1 16
          (if rec_old_is_versioned example_rec_versioned 16 then
            2 - n_dropped_below example_offsets_dropped 2 else 2) =
        some (rec_get_field_start_offs_low example_rec_versioned 16
          (if rec_old_is_versioned example_rec_versioned 16 then
            2 - n_dropped_below example_offsets_dropped 2 else 2),
          UNIV_SQL_NULL) ∧
      rec_offs_nth_sql_null_low example_offsets_dropped 2 = 0 :=
  rec_set_nth_field_low_null_round_trip example_rec_versioned 16 example_offsets_dropped 2
    example_data (by decide) (by decide) (by decide)

/-- C8 as stated fails: field 2 of `example_offsets_dropped` is not NULL; the
call succeeds and the inline header then reports slot 1 as SQL NULL, but
`rec_offs_nth_sql_null_low(offsets, 2)` is 0 after the call as before it,
because the array is not written. -/
theorem offsets_array_not_updated_by_null_write :
    rec_offs_comp example_offsets_dropped = false ∧
    ∃ mem1,
      rec_set_nth_field_low example_rec_versioned 16 example_offsets_dropped 2 example_data
        UNIV_SQL_NULL = some mem1 ∧
      rec_get_nth_field_offs_old_low mem1 16 1 = some (3, UNIV_SQL_NULL) ∧
      ¬ rec_offs_nth_sql_null_low example_offsets_dropped 2 ≠ 0 :=
  ⟨by decide, rec_set_nth_field_sql_null_low example_rec_versioned 16 1, rfl, by decide,
    by decide⟩

/-! ## Marking a field as externally stored -/

theorem or_two_pow_and (x y k : Nat) (h : y.testBit k = false) :
    (x ||| 2 ^ k) &&& y = x &&& y := by
  apply Nat.eq_of_testBit_eq
  intro i
  rw [Nat.testBit_and, Nat.testBit_and, Nat.testBit_or, Nat.testBit_two_pow]
  by_cases hi : k = i
  · subst hi; simp [h]
  · simp [hi]

theorem rec_offs_make_nth_extern_low_base (offsets : Offsets) (n : Nat) :
    rec_offs_base (rec_offs_make_nth_extern_low offsets n) (1 + n) =
      rec_offs_base offsets (1 + n) ||| REC_OFFS_EXTERNAL := by
  simp [rec_offs_base, rec_offs_make_nth_extern_low]

theorem rec_offs_make_nth_extern_low_other (offsets : Offsets) (n i : Nat)
    (hi : i ≠ REC_OFFS_HEADER_SIZE + (1 + n)) :
    rec_offs_make_nth_extern_low offsets n i = offsets i := by
  simp [rec_offs_make_nth_extern_low, hi]

/-- C11: for `n < n_fields` whose entry is not NULL, after
`rec_offs_make_nth_extern_low(offsets, n)` the predicate
`rec_offs_nth_extern_low(offsets, n)` is nonzero, the masked offset of entry
`n` and its NULL, DEFAULT and DROPPED flags are unchanged, and every other
word of the array, slot 0 of the per-field part and the field count included,
is unchanged. -/
theorem rec_offs_make_nth_extern_low_marks_one (offsets : Offsets) (n : Nat)
    (_hn : n < rec_offs_n_fields offsets)
    (_hnn : rec_offs_nth_sql_null_low offsets n = 0) :
    rec_offs_nth_extern_low (rec_offs_make_nth_extern_low offsets n) n ≠ 0 ∧
    rec_offs_base (rec_offs_make_nth_extern_low offsets n) (1 + n) &&& REC_OFFS_MASK =
      rec_offs_base offsets (1 + n) &&& REC_OFFS_MASK ∧
    rec_offs_nth_sql_null_low (rec_offs_make_nth_extern_low offsets n) n =
      rec_offs_nth_sql_null_low offsets n ∧
    rec_offs_nth_default_low (rec_offs_make_nth_extern_low offsets n) n =
      rec_offs_nth_default_low offsets n ∧
    rec_offs_base (rec_offs_make_nth_extern_low offsets n) (1 + n) &&& REC_OFFS_DROP =
      rec_offs_base offsets (1 + n) &&& REC_OFFS_DROP ∧
    (∀ i, i ≠ REC_OFFS_HEADER_SIZE + (1 + n) →
      rec_offs_make_nth_extern_low offsets n i = offsets i) ∧
    rec_offs_base (rec_offs_make_nth_extern_low offsets n) 0 = rec_offs_base offsets 0 ∧
    rec_offs_n_fields (rec_offs_make_nth_extern_low offsets n) = rec_offs_n_fields offsets := by
  have e : REC_OFFS_EXTERNAL = 2 ^ 30 := rfl
  refine ⟨?_, ?_, ?_, ?_, ?_, fun i hi => rec_offs_make_nth_extern_low_other offsets n i hi,
    ?_, ?_⟩
  · unfold rec_offs_nth_extern_low
    rw [rec_offs_make_nth_extern_low_base, e, and_two_pow_ne_zero_iff, Nat.testBit_or,
      Nat.testBit_two_pow_self]
    simp
  · rw [rec_offs_make_nth_extern_low_base, e]
    exact or_two_pow_and _ _ 30 (by decide)
  · unfold rec_offs_nth_sql_null_low
    rw [rec_offs_make_nth_extern_low_base, e]
    exact or_two_pow_and _ _ 30 (by decide)
  · unfold rec_offs_nth_default_low
    rw [rec_offs_make_nth_extern_low_base, e]
    exact or_two_pow_and _ _ 30 (by decide)
  · rw [rec_offs_make_nth_extern_low_base, e]
    exact or_two_pow_and _ _ 30 (by decide)
  · unfold rec_offs_base
    exact rec_offs_make_nth_extern_low_other offsets n _ (by omega)
  · unfold rec_offs_n_fields
    exact rec_offs_make_nth_extern_low_other offsets n _ (by unfold REC_OFFS_HEADER_SIZE; omega)

/-- Instance of C11: field 2 of the example array. -/
theorem rec_offs_make_nth_extern_low_marks_one_witness :
    rec_offs_nth_extern_low example_offsets 2 = 0 ∧
    rec_offs_nth_extern_low (rec_offs_make_nth_extern_low example_offsets 2) 2 ≠ 0 ∧
    rec_offs_base (rec_offs_make_nth_extern_low example_offsets 2) (1 + 2) &&& REC_OFFS_MASK =
      rec_offs_base example_offsets (1 + 2) &&& REC_OFFS_MASK ∧
    rec_offs_nth_sql_null_low (rec_offs_make_nth_extern_low example_offsets 2) 2 =
      rec_offs_nth_sql_null_low example_offsets 2 ∧
    rec_offs_nth_default_low (rec_offs_make_nth_extern_low example_offsets 2) 2 =
      rec_offs_nth_default_low example_offsets 2 ∧
    rec_offs_base (rec_offs_make_nth_extern_low example_offsets 2) (1 + 2) &&& REC_OFFS_DROP =
      rec_offs_base example_offsets (1 + 2) &&& REC_OFFS_DROP ∧
    (∀ i, i ≠ REC_OFFS_HEADER_SIZE + (1 + 2) →
      rec_offs_make_nth_extern_low example_offsets 2 i = example_offsets i) ∧
    rec_offs_base (rec_offs_make_nth_extern_low example_offsets 2) 0 =
      rec_offs_base example_offsets 0 ∧
    rec_offs_n_fields (rec_offs_make_nth_extern_low example_offsets 2) =
      rec_offs_n_fields example_offsets :=
  ⟨by decide, rec_offs_make_nth_extern_low_marks_one example_offsets 2 (by decide) (by decide)⟩

/-! ## Flagged entries of the offsets array -/

/-- C12 (amended): for an offsets array whose entry for field `n` has the
DEFAULT flag (bit 29) set and the NULL (bit 31) and EXTERNAL (bit 30) flags
clear, `rec_get_nth_field_offs_low` returns length `UNIV_SQL_ADD_COL_DEFAULT`,
`rec_offs_nth_default_low(offsets, n)` is nonzero, and
`rec_offs_nth_sql_null_low(offsets, n)` and `rec_offs_nth_extern_low(offsets,
n)` are both 0. -/
theorem default_flagged_entry (offsets : Offsets) (n : Nat)
    (hdef : (rec_offs_base offsets (1 + n)).testBit 29 = true)
    (hnull : (rec_offs_base offsets (1 + n)).testBit 31 = false)
    (hext : (rec_offs_base offsets (1 + n)).testBit 30 = false) :
    (rec_get_nth_field_offs_low offsets n).2 = UNIV_SQL_ADD_COL_DEFAULT ∧
    rec_offs_nth_default_low offsets n ≠ 0 ∧
    rec_offs_nth_sql_null_low offsets n = 0 ∧
    rec_offs_nth_extern_low offsets n = 0 := by
  have e31 : REC_OFFS_SQL_NULL = 2 ^ 31 := rfl
  have e30 : REC_OFFS_EXTERNAL = 2 ^ 30 := rfl
  have e29 : REC_OFFS_DEFAULT = 2 ^ 29 := rfl
  have h31 : rec_offs_base offsets (1 + n) &&& REC_OFFS_SQL_NULL = 0 := by
    rw [e31, and_two_pow_eq, hnull]; rfl
  have h30 : rec_offs_base offsets (1 + n) &&& REC_OFFS_EXTERNAL = 0 := by
    rw [e30, and_two_pow_eq, hext]; rfl
  have h29 : rec_offs_base offsets (1 + n) &&& REC_OFFS_DEFAULT ≠ 0 := by
    rw [e29, and_two_pow_ne_zero_iff]; exact hdef
  refine ⟨?_, h29, h31, h30⟩
  simp [rec_get_nth_field_offs_low, h31, h29]

/-- Instance of C12 (amended): field 2 of `example_offsets_default`. -/
theorem default_flagged_entry_witness :
    rec_get_nth_field_offs_low example_offsets_default 2 = (9, UNIV_SQL_ADD_COL_DEFAULT) ∧
    ((rec_get_nth_field_offs_low example_offsets_default 2).2 = UNIV_SQL_ADD_COL_DEFAULT ∧
    rec_offs_nth_default_low example_offsets_default 2 ≠ 0 ∧
    rec_offs_nth_sql_null_low example_offsets_default 2 = 0 ∧
    rec_offs_nth_extern_low example_offsets_default 2 = 0) :=
  ⟨by decide, default_flagged_entry example_offsets_default 2 (by decide) (by decide)
    (by decide)⟩

/-- C12 as stated fails: field 2 of `example_offsets_default` is DEFAULT and not
NULL, so `rec_offs_make_nth_extern_low` may be applied to it; in the resulting
array the entry still has the DEFAULT flag set and the lookup still returns
`UNIV_SQL_ADD_COL_DEFAULT`, but `rec_offs_nth_extern_low` is nonzero. -/
theorem default_flag_does_not_exclude_extern :
    rec_offs_nth_sql_null_low example_offsets_default 2 = 0 ∧
    rec_offs_nth_default_low (rec_offs_make_nth_extern_low example_offsets_default 2) 2 ≠ 0 ∧
    (rec_get_nth_field_offs_low (rec_offs_make_nth_extern_low example_offsets_default 2) 2).2 =
      UNIV_SQL_ADD_COL_DEFAULT ∧
    ¬ rec_offs_nth_extern_low (rec_offs_make_nth_extern_low example_offsets_default 2) 2 = 0 :=
  ⟨by decide, by decide, by decide, by decide⟩

theorem ulint_sub_and_offs_mask (a b : Nat) :
    ulint_sub a b &&& REC_OFFS_MASK = (a % 2 ^ 28 + 2 ^ 28 - b % 2 ^ 28) % 2 ^ 28 := by
  rw [and_offs_mask_eq_mod]
  unfold ulint_sub
  omega

/-- The physical size is the difference of the offset bits of entry `n` and
entry `n - 1`, modulo `2 ^ 28`. -/
theorem rec_offs_nth_size_low_eq (offsets : Offsets) (n : Nat) :
    rec_offs_nth_size_low offsets n =
      (rec_offs_base offsets (1 + n) % 2 ^ 28 + 2 ^ 28 -
        (if n = 0 then 0 else rec_offs_base offsets n % 2 ^ 28)) % 2 ^ 28 := by
  unfold rec_offs_nth_size_low
  by_cases h : n = 0
  · rw [if_pos h, if_pos h, and_offs_mask_eq_mod]; omega
  · rw [if_neg h, if_neg h, ulint_sub_and_offs_mask]

/-- C13 (amended): for `n < n_fields` whose entry has the NULL, DEFAULT or
DROPPED flag set, `rec_offs_nth_size_low(offsets, n)` returns 0 exactly when
the offset bits of entry `n` repeat those of entry `n - 1` (are zero for
`n = 0`); in general it returns the difference of the two modulo `2 ^ 28`,
whatever the flags. -/
theorem rec_offs_nth_size_low_flagged (offsets : Offsets) (n : Nat)
    (_hn : n < rec_offs_n_fields offsets)
    (_hflag : rec_offs_base offsets (1 + n) &&& REC_OFFS_SQL_NULL ≠ 0 ∨
      rec_offs_base offsets (1 + n) &&& REC_OFFS_DEFAULT ≠ 0 ∨
      rec_offs_base offsets (1 + n) &&& REC_OFFS_DROP ≠ 0) :
    (rec_offs_nth_size_low offsets n = 0 ↔
      rec_offs_base offsets (1 + n) &&& REC_OFFS_MASK =
        (if n = 0 then 0 else rec_offs_base offsets n &&& REC_OFFS_MASK)) ∧
    rec_offs_nth_size_low offsets n =
      (rec_offs_base offsets (1 + n) % 2 ^ 28 + 2 ^ 28 -
        (if n = 0 then 0 else rec_offs_base offsets n % 2 ^ 28)) % 2 ^ 28 := by
  refine ⟨?_, rec_offs_nth_size_low_eq offsets n⟩
  rw [rec_offs_nth_size_low_eq, and_offs_mask_eq_mod]
  by_cases h : n = 0
  · simp only [h, if_true]; omega
  · simp only [h, if_false, and_offs_mask_eq_mod]; omega

/-- Instance of C13 (amended): field 1 of the example array is an SQL NULL
that repeats the end 5 of field 0, so its size is 0. -/
theorem rec_offs_nth_size_low_flagged_witness :
    rec_offs_nth_size_low example_offsets 1 = 0 ∧
    ((rec_offs_nth_size_low example_offsets 1 = 0 ↔
      rec_offs_base example_offsets (1 + 1) &&& REC_OFFS_MASK =
        (if 1 = 0 then 0 else rec_offs_base example_offsets 1 &&& REC_OFFS_MASK)) ∧
    rec_offs_nth_size_low example_offsets 1 =
      (rec_offs_base example_offsets (1 + 1) % 2 ^ 28 + 2 ^ 28 -
        (if 1 = 0 then 0 else rec_offs_base example_offsets 1 % 2 ^ 28)) % 2 ^ 28) :=
  ⟨by decide, rec_offs_nth_size_low_flagged example_offsets 1 (by decide)
    (Or.inl (by decide))⟩

/-- C13 as stated fails: field 1 of `example_offsets_fixed_null`, the array of a
record whose field 1 is an SQL NULL of fixed size 4, has the NULL flag set and
`rec_offs_nth_size_low` returns 4. -/
theorem flagged_entry_with_nonzero_size :
    1 < rec_offs_n_fields example_offsets_fixed_null ∧
    rec_offs_nth_sql_null_low example_offsets_fixed_null 1 ≠ 0 ∧
    rec_offs_nth_size_low example_offsets_fixed_null 1 = 4 ∧
    ¬ rec_offs_nth_size_low example_offsets_fixed_null 1 = 0 :=
  ⟨by decide, by decide, by decide, by decide⟩

/-! ## Field starts and sizes of a valid record -/

theorem rec_start_succ_masked (mem : Mem) (rec : Int) (n : Nat) :
    rec_get_field_start_offs_low mem rec (n + 1) = rec_old_masked_end mem rec n :=
  rec_start_succ mem rec n

theorem rec_size_of_le (mem : Mem) (rec : Int) (n : Nat)
    (h : rec_get_field_start_offs_low mem rec n ≤ rec_get_field_start_offs_low mem rec (n + 1)) :
    rec_get_nth_field_size_low mem rec n =
      rec_get_field_start_offs_low mem rec (n + 1) - rec_get_field_start_offs_low mem rec n := by
  have hlt := rec_start_lt mem rec (n + 1)
  exact ulint_sub_of_le _ _ (by omega) h

/-- In a valid record the start of a field is not after the start of the
next one. -/
theorem rec_starts_le (mem : Mem) (rec : Int) (n : Nat)
    (hvalid : rec_old_ends_sorted mem rec) (hn : n < rec_get_n_fields_old_raw mem rec) :
    rec_get_field_start_offs_low mem rec n ≤ rec_get_field_start_offs_low mem rec (n + 1) := by
  cases n with
  | zero => exact Nat.zero_le _
  | succ m =>
    rw [rec_start_succ_masked, rec_start_succ_masked]
    exact hvalid m (by omega)

/-- C14: in a valid old-style record, one whose stored end offsets with the
flag bits masked off are non-decreasing in field number, for every
`n < n_fields` the start of field `n + 1` is not below the start of field `n`,
in both slot widths and whatever NULL/EXTERN flags are set, so
`rec_get_nth_field_size_low` is their exact difference and does not wrap. -/
theorem rec_field_starts_non_decreasing (mem : Mem) (rec : Int) (n : Nat)
    (hvalid : rec_old_ends_sorted mem rec) (hn : n < rec_get_n_fields_old_raw mem rec) :
    rec_get_field_start_offs_low mem rec n ≤ rec_get_field_start_offs_low mem rec (n + 1) ∧
    rec_get_nth_field_size_low mem rec n =
      rec_get_field_start_offs_low mem rec (n + 1) - rec_get_field_start_offs_low mem rec n ∧
    rec_get_nth_field_size_low mem rec n < 2 ^ 14 := by
  have hle := rec_starts_le mem rec n hvalid hn
  have hsz := rec_size_of_le mem rec n hle
  have hlt := rec_start_lt mem rec (n + 1)
  exact ⟨hle, hsz, by omega⟩

/-- Instance of C14: field 1 of the 2-byte example record, an SQL NULL between
the ends 5 and 5, and field 2 of the 1-byte example record. -/
theorem rec_field_starts_non_decreasing_witness :
    rec_get_nth_field_size_low example_rec_2byte 16 1 = 0 ∧
    rec_get_nth_field_size_low example_rec_1byte 16 2 = 4 ∧
    (rec_get_field_start_offs_low example_rec_2byte 16 1 ≤
        rec_get_field_start_offs_low example_rec_2byte 16 (1 + 1) ∧
      rec_get_nth_field_size_low example_rec_2byte 16 1 =
        rec_get_field_start_offs_low example_rec_2byte 16 (1 + 1) -
          rec_get_field_start_offs_low example_rec_2byte 16 1 ∧
      rec_get_nth_field_size_low example_rec_2byte 16 1 < 2 ^ 14) ∧
    (rec_get_field_start_offs_low example_rec_1byte 16 2 ≤
        rec_get_field_start_offs_low example_rec_1byte 16 (2 + 1) ∧
      rec_get_nth_field_size_low example_rec_1byte 16 2 =
        rec_get_field_start_offs_low example_rec_1byte 16 (2 + 1) -
          rec_get_field_start_offs_low example_rec_1byte 16 2 ∧
      rec_get_nth_field_size_low example_rec_1byte 16 2 < 2 ^ 14) :=
  ⟨by decide, by decide,
    rec_field_starts_non_decreasing example_rec_2byte 16 1 (by decide) (by decide),
    rec_field_starts_non_decreasing example_rec_1byte 16 2 (by decide) (by decide)⟩

/-- In a valid record the sizes of the first `k` fields add up to the start of
field `k`. -/
theorem rec_sizes_sum (mem : Mem) (rec : Int) (hvalid : rec_old_ends_sorted mem rec)
    (k : Nat) (hk : k ≤ rec_get_n_fields_old_raw mem rec) :
    ((List.range k).map (rec_get_nth_field_size_low mem rec)).sum =
      rec_get_field_start_offs_low mem rec k := by
  induction k with
  | zero => rfl
  | succ j ih =>
    have hle := rec_starts_le mem rec j hvalid (by omega)
    rw [List.range_succ, List.map_append, List.sum_append, ih (by omega), List.map_singleton,
      List.sum_singleton, rec_size_of_le mem rec j hle]
    omega

/-- C15: for an old-style record with non-decreasing masked end offsets,
`rec_get_data_size_old(rec)` is the masked end offset of the last field (0 for
a record with no fields) and is the sum over all `n < n_fields` of
`rec_get_nth_field_size_low(rec, n)`. -/
theorem rec_get_data_size_old_is_sum (mem : Mem) (rec : Int)
    (hvalid : rec_old_ends_sorted mem rec) :
    rec_get_data_size_old mem rec =
      (if rec_get_n_fields_old_raw mem rec = 0 then 0
       else rec_old_masked_end mem rec (rec_get_n_fields_old_raw mem rec - 1)) ∧
    rec_get_data_size_old mem rec =
      ((List.range (rec_get_n_fields_old_raw mem rec)).map
        (rec_get_nth_field_size_low mem rec)).sum := by
  refine ⟨?_, (rec_sizes_sum mem rec hvalid _ (Nat.le_refl _)).symm⟩
  unfold rec_get_data_size_old
  cases h : rec_get_n_fields_old_raw mem rec with
  | zero => rfl
  | succ j => rw [rec_start_succ_masked]; simp

/-- Instance of C15: the 1-byte example record has data size 9 = 5 + 0 + 4. -/
theorem rec_get_data_size_old_is_sum_witness :
    rec_get_data_size_old example_rec_1byte 16 = 9 ∧
    (List.range (rec_get_n_fields_old_raw example_rec_1byte 16)).map
      (rec_get_nth_field_size_low example_rec_1byte 16) = [5, 0, 4] ∧
    (rec_get_data_size_old example_rec_1byte 16 =
      (if rec_get_n_fields_old_raw example_rec_1byte 16 = 0 then 0
       else rec_old_masked_end example_rec_1byte 16
        (rec_get_n_fields_old_raw example_rec_1byte 16 - 1)) ∧
    rec_get_data_size_old example_rec_1byte 16 =
      ((List.range (rec_get_n_fields_old_raw example_rec_1byte 16)).map
        (rec_get_nth_field_size_low example_rec_1byte 16)).sum) :=
  ⟨by decide, by decide, rec_get_data_size_old_is_sum example_rec_1byte 16 (by decide)⟩

/-- When every SQL NULL field before `n` has size 0, the start of field `n` is
the end of the nearest earlier field that is not NULL. -/
theorem rec_start_eq_prev_non_null_end (mem : Mem) (rec : Int) (n : Nat)
    (hz : ∀ m < n, rec_old_null_flag mem rec m = true →
      rec_old_masked_end mem rec m = rec_get_field_start_offs_low mem rec m) :
    rec_get_field_start_offs_low mem rec n = prev_non_null_end mem rec n := by
  induction n with
  | zero => rfl
  | succ j ih =>
    have ihj := ih (fun m hm => hz m (by omega))
    rw [rec_start_succ_masked]
    unfold prev_non_null_end
    by_cases hnull : rec_old_null_flag mem rec j = true
    · rw [if_pos hnull, hz j (by omega) hnull, ihj]
    · rw [if_neg hnull]

/-- What the code computes for a field `n < n_fields` whose NULL flag is set:
`rec_get_field_start_offs_low(rec, n)` is the masked end-info of field `n - 1`
(0 for `n = 0`), whether or not that field is NULL; it is the end offset of
the nearest preceding field whose NULL flag is clear, or 0 if there is none,
when every SQL NULL field before `n` has size 0. -/
theorem rec_null_field_start (mem : Mem) (rec : Int) (n : Nat)
    (_hn : n < rec_get_n_fields_old_raw mem rec)
    (_hnull : rec_old_null_flag mem rec n = true) :
    rec_get_field_start_offs_low mem rec n =
      (if n = 0 then 0 else rec_old_masked_end mem rec (n - 1)) ∧
    ((∀ m < n, rec_old_null_flag mem rec m = true →
        rec_old_masked_end mem rec m = rec_get_field_start_offs_low mem rec m) →
      rec_get_field_start_offs_low mem rec n = prev_non_null_end mem rec n) := by
  refine ⟨?_, rec_start_eq_prev_non_null_end mem rec n⟩
  cases n with
  | zero => rfl
  | succ j => rw [rec_start_succ_masked]; simp

/-- Instance of `rec_null_field_start`: field 2 of `example_rec_nulls` follows
an SQL NULL of size 0 and starts at 5, the end of field 0. -/
theorem rec_null_field_start_witness :
    rec_get_field_start_offs_low example_rec_nulls 16 2 = 5 ∧
    prev_non_null_end example_rec_nulls 16 2 = 5 ∧
    rec_get_field_start_offs_low example_rec_nulls 16 2 =
      (if 2 = 0 then 0 else rec_old_masked_end example_rec_nulls 16 (2 - 1)) ∧
    rec_get_field_start_offs_low example_rec_nulls 16 2 =
      prev_non_null_end example_rec_nulls 16 2 :=
  ⟨by decide, by decide,
    (rec_null_field_start example_rec_nulls 16 2 (by decide) (by decide)).1,
    (rec_null_field_start example_rec_nulls 16 2 (by decide) (by decide)).2 (by decide)⟩

/-- C16: the comment of `rec_get_field_start_offs_low` in rem0lrec.h says that
the start of an SQL NULL field is the end offset of the previous non-null
field, or 0 if none exists, and the code does not keep to it. In
`example_rec_fixed_null` field 2 has its NULL flag set and follows field 1, an
SQL NULL of fixed size 4; the nearest preceding field whose NULL flag is clear
is field 0, which ends at 5, and `rec_get_field_start_offs_low(rec, 2)` returns
9, the end of field 1. -/
theorem null_field_start_after_fixed_size_null :
    2 < rec_get_n_fields_old_raw example_rec_fixed_null 16 ∧
    rec_old_null_flag example_rec_fixed_null 16 2 = true ∧
    rec_old_null_flag example_rec_fixed_null 16 1 = true ∧
    rec_old_null_flag example_rec_fixed_null 16 0 = false ∧
    rec_old_masked_end example_rec_fixed_null 16 0 = 5 ∧
    prev_non_null_end example_rec_fixed_null 16 2 = 5 ∧
    rec_get_field_start_offs_low example_rec_fixed_null 16 2 = 9 ∧
    rec_get_nth_field_size_low example_rec_fixed_null 16 1 = 4 ∧
    ¬ rec_get_field_start_offs_low example_rec_fixed_null 16 2 =
      prev_non_null_end example_rec_fixed_null 16 2 :=
  ⟨by decide, by decide, by decide, by decide, by decide, by decide, by decide, by decide,
    by decide⟩

/-! ## Writing over an SQL NULL field -/

/-- C17: when `rec_offs_nth_sql_null_low(offsets, n)` is nonzero,
`rec_set_nth_field_low(rec, offsets, n, data, UNIV_SQL_NULL)` returns without
aborting and leaves every byte of the record, header and data, unchanged, for
compact and old-style arrays alike and for any data pointer; the same holds
through the wrapper `rec_set_nth_field` with a null index. -/
theorem rec_set_nth_field_low_null_over_null (mem : Mem) (rec : Int) (offsets : Offsets)
    (n : Nat) (data : Nat → byte)
    (hnull : rec_offs_nth_sql_null_low offsets n ≠ 0) :
    rec_set_nth_field_low mem rec offsets n data UNIV_SQL_NULL = some mem ∧
    rec_set_nth_field none mem rec offsets n data UNIV_SQL_NULL = some mem := by
  have h : rec_set_nth_field_low mem rec offsets n data UNIV_SQL_NULL = some mem := by
    unfold rec_set_nth_field_low
    rw [if_pos rfl, if_neg hnull]
  exact ⟨h, h⟩

/-- Instance of C17: field 1 of the old-style example array and field 1 of a
compact array, both SQL NULL. -/
theorem rec_set_nth_field_low_null_over_null_witness :
    rec_offs_comp example_offsets = false ∧
    rec_offs_comp example_offsets_compact_null = true ∧
    rec_set_nth_field_low example_rec_1byte 16 example_offsets 1 example_data
      UNIV_SQL_NULL = some example_rec_1byte ∧
    rec_set_nth_field_low example_rec_1byte 16 example_offsets_compact_null 1 example_data
      UNIV_SQL_NULL = some example_rec_1byte :=
  ⟨by decide, by decide,
    (rec_set_nth_field_low_null_over_null example_rec_1byte 16 example_offsets 1
      example_data (by decide)).1,
    (rec_set_nth_field_low_null_over_null example_rec_1byte 16 example_offsets_compact_null 1
      example_data (by decide)).1⟩

theorem offs_low_snd_null (offsets : Offsets) (n : Nat)
    (hnull : rec_offs_nth_sql_null_low offsets n ≠ 0) :
    (rec_get_nth_field_offs_low offsets n).2 = UNIV_SQL_NULL := by
  unfold rec_offs_nth_sql_null_low at hnull
  simp [rec_get_nth_field_offs_low, hnull]

/-- A field size of an old-style record is never the NULL sentinel. -/
theorem rec_size_ne_sentinel (mem : Mem) (rec : Int) (n : Nat) :
    rec_get_nth_field_size_low mem rec n ≠ UNIV_SQL_NULL := by
  have a := rec_start_lt mem rec n
  have b := rec_start_lt mem rec (n + 1)
  have h : rec_get_nth_field_size_low mem rec n =
      ulint_sub (rec_get_field_start_offs_low mem rec (n + 1))
        (rec_get_field_start_offs_low mem rec n) := rfl
  rw [h]
  unfold ulint_sub UNIV_SQL_NULL
  omega

/-- Setting or clearing the NULL bit of a field moves no field start. -/
theorem null_bit_low_start (mem : Mem) (rec : Int) (i : Nat) (val : Bool) (k : Nat) :
    rec_get_field_start_offs_low (rec_set_nth_field_null_bit_low mem rec i val) rec k =
      rec_get_field_start_offs_low mem rec k := by
  cases k with
  | zero => rfl
  | succ m =>
    obtain ⟨_, hw, _⟩ := fixed_header_congr mem (rec_set_nth_field_null_bit_low mem rec i val)
      rec (fun a ha _ => rec_set_nth_field_null_bit_low_frame mem rec i val a ha)
    rw [rec_start_succ, rec_start_succ, hw]
    by_cases hmi : m = i
    · subst hmi
      by_cases hf : rec_get_1byte_offs_flag mem rec = true
      · rw [if_pos hf, if_pos hf]
        apply Nat.eq_of_testBit_eq
        intro k
        have h1 := rec_1_end_info_lt (rec_set_nth_field_null_bit_low mem rec m val) rec m
        have h2 := rec_1_end_info_lt mem rec m
        rw [testBit_and_mask_not _ _ _ (lt_trans h1 (by decide)),
          testBit_and_mask_not _ _ _ (lt_trans h2 (by decide)),
          null_bit_low_1_testBit mem rec m val hf]
        have e : REC_1BYTE_SQL_NULL_MASK = 2 ^ 7 := by decide
        rw [e, Nat.testBit_two_pow]
        by_cases hk : k = 7
        · subst hk; simp
        · have : ¬ 7 = k := fun h => hk h.symm
          simp [hk, this]
      · have hf2 : rec_get_1byte_offs_flag mem rec = false := by simpa using hf
        rw [if_neg hf, if_neg hf]
        apply Nat.eq_of_testBit_eq
        intro k
        have h1 := rec_2_end_info_lt (rec_set_nth_field_null_bit_low mem rec m val) rec m
        have h2 := rec_2_end_info_lt mem rec m
        rw [testBit_and_mask_not _ _ _ (lt_trans h1 (by decide)),
          testBit_and_mask_not _ _ _ (lt_trans h2 (by decide)),
          null_bit_low_2_testBit mem rec m val hf2]
        have e1 : REC_2BYTE_SQL_NULL_MASK = 2 ^ 15 := by decide
        have e2 : REC_2BYTE_EXTERN_MASK = 2 ^ 14 := by decide
        rw [e1, e2, Nat.testBit_or, Nat.testBit_two_pow, Nat.testBit_two_pow]
        by_cases hk : k = 15
        · subst hk; simp
        · have : ¬ 15 = k := fun h => hk h.symm
          simp [hk, this]
    · have hother := null_bit_low_get_other mem rec i m val hmi
      by_cases hf : rec_get_1byte_offs_flag mem rec = true
      · rw [if_pos hf, if_pos hf, hother.1 hf]
      · have hf2 : rec_get_1byte_offs_flag mem rec = false := by simpa using hf
        rw [if_neg hf, if_neg hf, hother.2 hf2]

/-- Clearing the NULL bit of a field leaves its NULL flag clear. -/
theorem null_bit_low_clear_flag (mem : Mem) (rec : Int) (i : Nat) :
    (if rec_get_1byte_offs_flag (rec_set_nth_field_null_bit_low mem rec i false) rec then
        rec_1_get_field_end_info_low (rec_set_nth_field_null_bit_low mem rec i false) rec i &&&
          REC_1BYTE_SQL_NULL_MASK
      else
        rec_2_get_field_end_info_low (rec_set_nth_field_null_bit_low mem rec i false) rec i &&&
          REC_2BYTE_SQL_NULL_MASK) = 0 := by
  obtain ⟨_, hw, _⟩ := fixed_header_congr mem (rec_set_nth_field_null_bit_low mem rec i false)
    rec (fun a ha _ => rec_set_nth_field_null_bit_low_frame mem rec i false a ha)
  rw [hw]
  by_cases hf : rec_get_1byte_offs_flag mem rec = true
  · have e : REC_1BYTE_SQL_NULL_MASK = 2 ^ 7 := by decide
    rw [if_pos hf, e, and_two_pow_eq, null_bit_low_1_testBit mem rec i false hf]
    simp
  · have hf2 : rec_get_1byte_offs_flag mem rec = false := by simpa using hf
    have e : REC_2BYTE_SQL_NULL_MASK = 2 ^ 15 := by decide
    rw [if_neg hf, e, and_two_pow_eq, null_bit_low_2_testBit mem rec i false hf2]
    simp

/-- The size of a field depends only on the field starts. -/
theorem rec_size_congr (mem mem1 : Mem) (rec : Int) (n : Nat)
    (h : ∀ k, rec_get_field_start_offs_low mem1 rec k = rec_get_field_start_offs_low mem rec k) :
    rec_get_nth_field_size_low mem1 rec n = rec_get_nth_field_size_low mem rec n := by
  show ulint_sub _ _ = ulint_sub _ _
  rw [h, h]

/-- C18: for an old-style record and an offsets array in which field `n` is
NULL, with header slot `p = n - n_drop` (`n_drop` the number of DROPPED entries
below `n` if the record is versioned, else 0) of physical size
`L = rec_get_nth_field_size_low(rec, p)` and with the array's offset for field
`n` equal to `rec_get_field_start_offs_low(rec, p)`: the call
`rec_set_nth_field_low(rec, offsets, n, data, L)` succeeds, and afterwards
`rec_get_nth_field_offs_old_low(rec, p)` returns the same offset with length
`L`, which is not `UNIV_SQL_NULL`, and the `L` bytes there are the bytes of
`data`. -/
theorem rec_set_nth_field_low_null_to_value (mem : Mem) (rec : Int) (offsets : Offsets)
    (n p : Nat) (data : Nat → byte)
    (hnull : rec_offs_nth_sql_null_low offsets n ≠ 0)
    (hpdef : p = (if rec_old_is_versioned mem rec then n - n_dropped_below offsets n else n))
    (hp : p < rec_get_n_fields_old_raw mem rec)
    (hoffs : (rec_get_nth_field_offs_low offsets n).1 =
      rec_get_field_start_offs_low mem rec p) :
    ∃ mem1,
      rec_set_nth_field_low mem rec offsets n data (rec_get_nth_field_size_low mem rec p) =
        some mem1 ∧
      rec_get_nth_field_offs_old_low mem1 rec p =
        some (rec_get_field_start_offs_low mem rec p, rec_get_nth_field_size_low mem rec p) ∧
      rec_get_nth_field_size_low mem rec p ≠ UNIV_SQL_NULL ∧
      ∀ i, i < rec_get_nth_field_size_low mem rec p →
        mem1 (rec + rec_get_field_start_offs_low mem rec p + i) = data i := by
  have hL := rec_size_ne_sentinel mem rec p
  have hget : rec_get_nth_field none rec offsets n =
      (rec + (rec_get_nth_field_offs_low offsets n).1,
        (rec_get_nth_field_offs_low offsets n).2) := rfl
  have hlen2 := offs_low_snd_null offsets n hnull
  have hp' : n - (if rec_old_is_versioned mem rec = true then fn offsets n else 0) = p := by
    rw [hpdef, fn_eq_n_dropped_below]
    split <;> simp
  have hframe0 : ∀ a, rec - 6 ≤ a →
      rec_set_nth_field_null_bit_low mem rec p false a = mem a :=
    fun a ha => rec_set_nth_field_null_bit_low_frame mem rec p false a ha
  have hbelow : ∀ a, a < rec →
      ut_memcpy (rec_set_nth_field_null_bit_low mem rec p false)
        (rec + rec_get_field_start_offs_low mem rec p) data
        (rec_get_nth_field_size_low mem rec p) a =
      rec_set_nth_field_null_bit_low mem rec p false a :=
    fun a ha => ut_memcpy_outside _ _ data _ a (Or.inl (by omega))
  refine ⟨ut_memcpy (rec_set_nth_field_null_bit_low mem rec p false)
    (rec + rec_get_field_start_offs_low mem rec p) data
    (rec_get_nth_field_size_low mem rec p), ?_, ?_, hL, ?_⟩
  · unfold rec_set_nth_field_low
    simp only [hL, if_false, hget, hlen2, if_true, hp', hoffs]
  · obtain ⟨_, hw0, hn0⟩ := fixed_header_congr mem _ rec (fun a ha _ => hframe0 a ha)
    obtain ⟨_, hw1, hn1⟩ := fixed_header_congr _ _ rec (fun a _ ha => hbelow a ha)
    have hreads := header_reads_congr _ _ rec hbelow
    have hstart : ∀ k, rec_get_field_start_offs_low
        (ut_memcpy (rec_set_nth_field_null_bit_low mem rec p false)
          (rec + rec_get_field_start_offs_low mem rec p) data
          (rec_get_nth_field_size_low mem rec p)) rec k =
        rec_get_field_start_offs_low mem rec k :=
      fun k => ((hreads k).2.2).trans (null_bit_low_start mem rec p false k)
    have hsize : rec_get_nth_field_size_low
        (ut_memcpy (rec_set_nth_field_null_bit_low mem rec p false)
          (rec + rec_get_field_start_offs_low mem rec p) data
          (rec_get_nth_field_size_low mem rec p)) rec p =
        rec_get_nth_field_size_low mem rec p := by
      exact rec_size_congr mem _ rec p hstart
    have hclear := null_bit_low_clear_flag mem rec p
    rw [offs_old_low_eq _ rec p (by rw [hn1, hn0]; exact hp), hw1, (hreads p).1,
      (hreads p).2.1, hclear, hstart, hsize]
    simp
  · intro i hi
    exact ut_memcpy_copied _ _ data _ i hi

/-- Instance of C18: field 1 of `example_rec_fixed_null`, an SQL NULL of fixed
size 4 starting at 5, receives four bytes of data. -/
theorem rec_set_nth_field_low_null_to_value_witness :
    rec_get_nth_field_size_low example_rec_fixed_null 16 1 = 4 ∧
    rec_get_field_start_offs_low example_rec_fixed_null 16 1 = 5 ∧
    rec_get_nth_field_offs_old_low example_rec_fixed_null 16 1 = some (5, UNIV_SQL_NULL) ∧
    ∃ mem1,
      rec_set_nth_field_low example_rec_fixed_null 16 example_offsets_fixed_null 1
        example_data (rec_get_nth_field_size_low example_rec_fixed_null 16 1) = some mem1 ∧
      rec_get_nth_field_offs_old_low mem1 16 1 =
        some (rec_get_field_start_offs_low example_rec_fixed_null 16 1,
          rec_get_nth_field_size_low example_rec_fixed_null 16 1) ∧
      rec_get_nth_field_size_low example_rec_fixed_null 16 1 ≠ UNIV_SQL_NULL ∧
      ∀ i, i < rec_get_nth_field_size_low example_rec_fixed_null 16 1 →
        mem1 (16 + rec_get_field_start_offs_low example_rec_fixed_null 16 1 + i) =
          example_data i :=
  ⟨by decide, by decide, by decide,
    rec_set_nth_field_low_null_to_value example_rec_fixed_null 16 example_offsets_fixed_null
      1 1 example_data (by decide) (by decide) (by decide) (by decide)⟩

/-! ## Versioned translation -/

/-- C19: for an index descriptor whose `has_row_versions()` is true, every
offsets-array wrapper is its `_low` form applied to
`index.get_field_off_pos(n)`, and every old-record wrapper is its `_low` form
applied to `index.get_field_phy_pos(n, v)`, where `v` is the byte stored at
`rec - (REC_N_OLD_EXTRA_BYTES + 1)`. -/
theorem wrappers_translate_with_row_versions (ix : dict_index_t)
    (hv : ix.has_row_versions = true)
    (mem : Mem) (rec : Int) (offsets : Offsets) (n : Nat) (data : Nat → byte) (len : Nat) :
    rec_get_nth_field_offs (some ix) offsets n =
      rec_get_nth_field_offs_low offsets (ix.get_field_off_pos n) ∧
    rec_offs_nth_extern (some ix) offsets n =
      rec_offs_nth_extern_low offsets (ix.get_field_off_pos n) ∧
    rec_offs_nth_sql_null (some ix) offsets n =
      rec_offs_nth_sql_null_low offsets (ix.get_field_off_pos n) ∧
    rec_offs_nth_default (some ix) offsets n =
      rec_offs_nth_default_low offsets (ix.get_field_off_pos n) ∧
    rec_offs_nth_size (some ix) offsets n =
      rec_offs_nth_size_low offsets (ix.get_field_off_pos n) ∧
    rec_offs_make_nth_extern (some ix) offsets n =
      rec_offs_make_nth_extern_low offsets (ix.get_field_off_pos n) ∧
    rec_set_nth_field (some ix) mem rec offsets n data len =
      rec_set_nth_field_low mem rec offsets (ix.get_field_off_pos n) data len ∧
    rec_get_nth_field_offs_old (some ix) mem rec n =
      rec_get_nth_field_offs_old_low mem rec
        (ix.get_field_phy_pos n (mem (rec - (REC_N_OLD_EXTRA_BYTES + 1 : Nat))).val) ∧
    rec_get_nth_field_size (some ix) mem rec n =
      rec_get_nth_field_size_low mem rec
        (ix.get_field_phy_pos n (mem (rec - (REC_N_OLD_EXTRA_BYTES + 1 : Nat))).val) ∧
    rec_2_is_field_extern (some ix) mem rec n =
      rec_2_get_field_end_info_low mem rec
        (ix.get_field_phy_pos n (mem (rec - (REC_N_OLD_EXTRA_BYTES + 1 : Nat))).val) &&&
        REC_2BYTE_EXTERN_MASK := by
  simp [rec_get_nth_field_offs, rec_offs_nth_extern, rec_offs_nth_sql_null,
    rec_offs_nth_default, rec_offs_nth_size, rec_offs_make_nth_extern, rec_set_nth_field,
    rec_get_nth_field_offs_old, rec_get_nth_field_size, rec_2_is_field_extern,
    rec_get_instant_row_version_old, hv]

/-- Instance of C19: `example_index_versioned` maps offsets position 1 to 2
and, for the row version 1 stored in the versioned example record, logical
field 2 to physical field 1. -/
theorem wrappers_translate_with_row_versions_witness :
    (example_rec_versioned (16 - (REC_N_OLD_EXTRA_BYTES + 1 : Nat))).val = 1 ∧
    rec_get_nth_field_offs (some example_index_versioned) example_offsets 1 = (5, 4) ∧
    rec_get_nth_field_offs_old (some example_index_versioned) example_rec_versioned 16 2 =
      some (3, 3) ∧
    rec_get_nth_field_offs (some example_index_versioned) example_offsets 1 =
      rec_get_nth_field_offs_low example_offsets (example_index_versioned.get_field_off_pos 1) ∧
    rec_get_nth_field_offs_old (some example_index_versioned) example_rec_versioned 16 2 =
      rec_get_nth_field_offs_old_low example_rec_versioned 16
        (example_index_versioned.get_field_phy_pos 2
          (example_rec_versioned (16 - (REC_N_OLD_EXTRA_BYTES + 1 : Nat))).val) :=
  ⟨by decide, by decide, by decide,
    (wrappers_translate_with_row_versions example_index_versioned rfl example_rec_versioned 16
      example_offsets 1 example_data 4).1,
    (wrappers_translate_with_row_versions example_index_versioned rfl example_rec_versioned 16
      example_offsets 2 example_data 4).2.2.2.2.2.2.2.1⟩

/-! ## Frame of the end-info writes -/

theorem rec_1_set_version_byte (mem : Mem) (rec : Int) (n info : Nat)
    (hv : rec_old_is_versioned mem rec = true) :
    rec_1_set_field_end_info_low mem rec n info (rec - (REC_N_OLD_EXTRA_BYTES + 1 : Nat)) =
      mem (rec - (REC_N_OLD_EXTRA_BYTES + 1 : Nat)) := by
  rw [rec_1_set_field_end_info_low_apply]
  have h : ¬ rec - ((REC_N_OLD_EXTRA_BYTES + 1 : Nat) : Int) =
      rec - ((REC_N_OLD_EXTRA_BYTES + (if rec_old_is_versioned mem rec then 1 else 0)
        + n + 1 : Nat) : Int) := by
    rw [if_pos hv]; omega
  rw [if_neg h]

theorem rec_2_set_version_byte (mem : Mem) (rec : Int) (n info : Nat)
    (hv : rec_old_is_versioned mem rec = true) :
    rec_2_set_field_end_info_low mem rec n info (rec - (REC_N_OLD_EXTRA_BYTES + 1 : Nat)) =
      mem (rec - (REC_N_OLD_EXTRA_BYTES + 1 : Nat)) := by
  rw [rec_2_set_field_end_info_low_apply]
  have h1 : ¬ rec - ((REC_N_OLD_EXTRA_BYTES + 1 : Nat) : Int) =
      rec - ((REC_N_OLD_EXTRA_BYTES + (if rec_old_is_versioned mem rec then 1 else 0)
        + 2 * n + 2 : Nat) : Int) := by
    rw [if_pos hv]; omega
  have h2 : ¬ rec - ((REC_N_OLD_EXTRA_BYTES + 1 : Nat) : Int) =
      rec - ((REC_N_OLD_EXTRA_BYTES + (if rec_old_is_versioned mem rec then 1 else 0)
        + 2 * n + 2 : Nat) : Int) + 1 := by
    rw [if_pos hv]; omega
  rw [if_neg h1, if_neg h2]

/-- C20: for distinct fields `n ≠ m`, both below `n_fields`, after
`rec_1_set_field_end_info_low(rec, n, info)` the 1-byte end-info of field `m`
is unchanged, and after `rec_2_set_field_end_info_low(rec, n, info)` the 2-byte
end-info of field `m` is unchanged; in both cases so are the row-version byte
at `rec - (REC_N_OLD_EXTRA_BYTES + 1)` when the record is versioned, the
`REC_N_OLD_EXTRA_BYTES` fixed header bytes, hence the slot-width flag, the
versioned flag and the field count, and every data byte at or after the
origin. -/
theorem rec_set_field_end_info_low_frame (mem : Mem) (rec : Int) (n m info : Nat)
    (hnm : n ≠ m) (_hn : n < rec_get_n_fields_old_raw mem rec)
    (_hm : m < rec_get_n_fields_old_raw mem rec) :
    (rec_1_get_field_end_info_low (rec_1_set_field_end_info_low mem rec n info) rec m =
        rec_1_get_field_end_info_low mem rec m ∧
      (rec_old_is_versioned mem rec = true →
        rec_get_instant_row_version_old (rec_1_set_field_end_info_low mem rec n info) rec =
          rec_get_instant_row_version_old mem rec) ∧
      (∀ a, rec - (REC_N_OLD_EXTRA_BYTES : Nat) ≤ a →
        rec_1_set_field_end_info_low mem rec n info a = mem a) ∧
      rec_get_1byte_offs_flag (rec_1_set_field_end_info_low mem rec n info) rec =
        rec_get_1byte_offs_flag mem rec ∧
      rec_old_is_versioned (rec_1_set_field_end_info_low mem rec n info) rec =
        rec_old_is_versioned mem rec ∧
      rec_get_n_fields_old_raw (rec_1_set_field_end_info_low mem rec n info) rec =
        rec_get_n_fields_old_raw mem rec) ∧
    (rec_2_get_field_end_info_low (rec_2_set_field_end_info_low mem rec n info) rec m =
        rec_2_get_field_end_info_low mem rec m ∧
      (rec_old_is_versioned mem rec = true →
        rec_get_instant_row_version_old (rec_2_set_field_end_info_low mem rec n info) rec =
          rec_get_instant_row_version_old mem rec) ∧
      (∀ a, rec - (REC_N_OLD_EXTRA_BYTES : Nat) ≤ a →
        rec_2_set_field_end_info_low mem rec n info a = mem a) ∧
      rec_get_1byte_offs_flag (rec_2_set_field_end_info_low mem rec n info) rec =
        rec_get_1byte_offs_flag mem rec ∧
      rec_old_is_versioned (rec_2_set_field_end_info_low mem rec n info) rec =
        rec_old_is_versioned mem rec ∧
      rec_get_n_fields_old_raw (rec_2_set_field_end_info_low mem rec n info) rec =
        rec_get_n_fields_old_raw mem rec) := by
  have f1 : ∀ a, rec - 6 ≤ a → rec_1_set_field_end_info_low mem rec n info a = mem a :=
    fun a ha => rec_1_set_field_end_info_low_frame mem rec n info a ha
  have f2 : ∀ a, rec - 6 ≤ a → rec_2_set_field_end_info_low mem rec n info a = mem a :=
    fun a ha => rec_2_set_field_end_info_low_frame mem rec n info a ha
  obtain ⟨v1, w1, c1⟩ := fixed_header_congr mem _ rec (fun a ha _ => f1 a ha)
  obtain ⟨v2, w2, c2⟩ := fixed_header_congr mem _ rec (fun a ha _ => f2 a ha)
  refine ⟨⟨rec_1_set_get_other mem rec n m info (Ne.symm hnm), ?_, ?_, w1, v1, c1⟩,
    ⟨rec_2_set_get_other mem rec n m info (Ne.symm hnm), ?_, ?_, w2, v2, c2⟩⟩
  · intro hv
    unfold rec_get_instant_row_version_old
    rw [rec_1_set_version_byte mem rec n info hv]
  · intro a ha
    exact f1 a (by unfold REC_N_OLD_EXTRA_BYTES at ha; omega)
  · intro hv
    unfold rec_get_instant_row_version_old
    rw [rec_2_set_version_byte mem rec n info hv]
  · intro a ha
    exact f2 a (by unfold REC_N_OLD_EXTRA_BYTES at ha; omega)

/-- Instance of C20: writing slot 1 of the versioned 1-byte example record and
slot 1 of the 2-byte example record leaves slot 2 as it was. -/
theorem rec_set_field_end_info_low_frame_witness :
    rec_1_get_field_end_info_low
      (rec_1_set_field_end_info_low example_rec_versioned 16 1 0x23) 16 2 = 9 ∧
    rec_get_instant_row_version_old
      (rec_1_set_field_end_info_low example_rec_versioned 16 1 0x23) 16 = 1 ∧
    rec_2_get_field_end_info_low
      (rec_2_set_field_end_info_low example_rec_2byte 16 1 0x4123) 16 2 = 0x4009 ∧
    rec_1_get_field_end_info_low
      (rec_1_set_field_end_info_low example_rec_versioned 16 1 0x23) 16 2 =
        rec_1_get_field_end_info_low example_rec_versioned 16 2 ∧
    rec_2_get_field_end_info_low
      (rec_2_set_field_end_info_low example_rec_2byte 16 1 0x4123) 16 2 =
        rec_2_get_field_end_info_low example_rec_2byte 16 2 :=
  ⟨by decide, by decide, by decide,
    (rec_set_field_end_info_low_frame example_rec_versioned 16 1 2 0x23 (by decide)
      (by decide) (by decide)).1.1,
    (rec_set_field_end_info_low_frame example_rec_2byte 16 1 2 0x4123 (by decide)
      (by decide) (by decide)).2.1⟩

/-! ## Frames of the field writes -/

/-- Two memories that agree before the origin give the same decoded field. -/
theorem offs_old_low_congr (mem mem1 : Mem) (rec : Int)
    (h : ∀ a, a < rec → mem1 a = mem a) (k : Nat) :
    rec_get_nth_field_offs_old_low mem1 rec k = rec_get_nth_field_offs_old_low mem rec k := by
  obtain ⟨_, hw, hn⟩ := fixed_header_congr mem mem1 rec (fun a _ ha => h a ha)
  have hr := header_reads_congr mem mem1 rec h
  by_cases hk : k < rec_get_n_fields_old_raw mem rec
  · rw [offs_old_low_eq mem1 rec k (by rw [hn]; exact hk), offs_old_low_eq mem rec k hk, hw,
      (hr k).1, (hr k).2.1, (hr k).2.2,
      rec_size_congr mem mem1 rec k (fun j => (hr j).2.2)]
  · have hk1 : ¬ k < rec_get_n_fields_old_raw mem1 rec := by rw [hn]; exact hk
    unfold rec_get_nth_field_offs_old_low
    rw [if_neg hk, if_neg hk1]

/-- C21: for a field `n < n_fields` that is not NULL/DEFAULT/DROPPED, with
offset `o` and length `len` in the array, `rec_set_nth_field_low(rec, offsets,
n, data, len)` succeeds and changes only the record bytes at
`rec + o .. rec + o + len - 1`: every byte before the origin and every other
data byte is unchanged, so the slot width, the versioned flag, the field count
and the end-info, start offset, size and decoded (offset, length) of every
field read from the inline header are the same before and after. -/
theorem rec_set_nth_field_low_same_length_frame (mem : Mem) (rec : Int) (offsets : Offsets)
    (n : Nat) (data : Nat → byte)
    (_hn : n < rec_offs_n_fields offsets)
    (hnull : rec_offs_nth_sql_null_low offsets n = 0)
    (hdef : rec_offs_nth_default_low offsets n = 0)
    (hdrop : rec_offs_base offsets (1 + n) &&& REC_OFFS_DROP = 0) :
    ∃ mem1,
      rec_set_nth_field_low mem rec offsets n data
          (rec_get_nth_field_offs_low offsets n).2 = some mem1 ∧
      (∀ a, (a < rec + (rec_get_nth_field_offs_low offsets n).1 ∨
          rec + (rec_get_nth_field_offs_low offsets n).1 +
            (rec_get_nth_field_offs_low offsets n).2 ≤ a) → mem1 a = mem a) ∧
      (∀ a, a < rec → mem1 a = mem a) ∧
      rec_get_1byte_offs_flag mem1 rec = rec_get_1byte_offs_flag mem rec ∧
      rec_old_is_versioned mem1 rec = rec_old_is_versioned mem rec ∧
      rec_get_n_fields_old_raw mem1 rec = rec_get_n_fields_old_raw mem rec ∧
      (∀ k, rec_1_get_field_end_info_low mem1 rec k = rec_1_get_field_end_info_low mem rec k ∧
        rec_2_get_field_end_info_low mem1 rec k = rec_2_get_field_end_info_low mem rec k ∧
        rec_get_field_start_offs_low mem1 rec k = rec_get_field_start_offs_low mem rec k ∧
        rec_get_nth_field_size_low mem1 rec k = rec_get_nth_field_size_low mem rec k ∧
        rec_get_nth_field_offs_old_low mem1 rec k = rec_get_nth_field_offs_old_low mem rec k) := by
  have hlen := offs_low_snd_plain offsets n hnull hdef hdrop
  have hne : (rec_get_nth_field_offs_low offsets n).2 ≠ UNIV_SQL_NULL := by
    rw [hlen]
    exact ulint_sub_ne_sentinel _ _ (and_offs_mask_lt _) (offs_low_fst_lt offsets n)
  have hget : rec_get_nth_field none rec offsets n =
      (rec + (rec_get_nth_field_offs_low offsets n).1,
        (rec_get_nth_field_offs_low offsets n).2) := rfl
  have hout : ∀ a, (a < rec + (rec_get_nth_field_offs_low offsets n).1 ∨
      rec + (rec_get_nth_field_offs_low offsets n).1 +
        (rec_get_nth_field_offs_low offsets n).2 ≤ a) →
      ut_memcpy mem (rec + (rec_get_nth_field_offs_low offsets n).1) data
        (rec_get_nth_field_offs_low offsets n).2 a = mem a :=
    fun a ha => ut_memcpy_outside mem _ data _ a ha
  have hbelow : ∀ a, a < rec →
      ut_memcpy mem (rec + (rec_get_nth_field_offs_low offsets n).1) data
        (rec_get_nth_field_offs_low offsets n).2 a = mem a :=
    fun a ha => hout a (Or.inl (by omega))
  obtain ⟨hv, hw, hnf⟩ := fixed_header_congr mem _ rec (fun a _ ha => hbelow a ha)
  have hr := header_reads_congr mem _ rec hbelow
  refine ⟨ut_memcpy mem (rec + (rec_get_nth_field_offs_low offsets n).1) data
    (rec_get_nth_field_offs_low offsets n).2, ?_, hout, hbelow, hw, hv, hnf, fun k => ?_⟩
  · unfold rec_set_nth_field_low
    simp only [hne, if_false, hget]
  · exact ⟨(hr k).1, (hr k).2.1, (hr k).2.2,
      rec_size_congr mem _ rec k (fun j => (hr j).2.2), offs_old_low_congr mem _ rec hbelow k⟩

/-- Instance of C21: four bytes written over field 2 (offset 5, length 4) of
the 1-byte example record leave its header as it was. -/
theorem rec_set_nth_field_low_same_length_frame_witness :
    rec_get_nth_field_offs_low example_offsets 2 = (5, 4) ∧
    ∃ mem1,
      rec_set_nth_field_low example_rec_1byte 16 example_offsets 2 example_data
          (rec_get_nth_field_offs_low example_offsets 2).2 = some mem1 ∧
      (∀ a, (a < (16 : Int) + (rec_get_nth_field_offs_low example_offsets 2).1 ∨
          (16 : Int) + (rec_get_nth_field_offs_low example_offsets 2).1 +
            (rec_get_nth_field_offs_low example_offsets 2).2 ≤ a) →
        mem1 a = example_rec_1byte a) ∧
      (∀ a, a < 16 → mem1 a = example_rec_1byte a) ∧
      rec_get_1byte_offs_flag mem1 16 = rec_get_1byte_offs_flag example_rec_1byte 16 ∧
      rec_old_is_versioned mem1 16 = rec_old_is_versioned example_rec_1byte 16 ∧
      rec_get_n_fields_old_raw mem1 16 = rec_get_n_fields_old_raw example_rec_1byte 16 ∧
      (∀ k, rec_1_get_field_end_info_low mem1 16 k =
          rec_1_get_field_end_info_low example_rec_1byte 16 k ∧
        rec_2_get_field_end_info_low mem1 16 k =
          rec_2_get_field_end_info_low example_rec_1byte 16 k ∧
        rec_get_field_start_offs_low mem1 16 k =
          rec_get_field_start_offs_low example_rec_1byte 16 k ∧
        rec_get_nth_field_size_low mem1 16 k =
          rec_get_nth_field_size_low example_rec_1byte 16 k ∧
        rec_get_nth_field_offs_old_low mem1 16 k =
          rec_get_nth_field_offs_old_low example_rec_1byte 16 k) :=
  ⟨by decide, rec_set_nth_field_low_same_length_frame example_rec_1byte 16 example_offsets 2
    example_data (by decide) (by decide) (by decide) (by decide)⟩


/-- Setting a field to SQL NULL moves no field start. -/
theorem sql_null_low_start (mem : Mem) (rec : Int) (n k : Nat) :
    rec_get_field_start_offs_low (rec_set_nth_field_sql_null_low mem rec n) rec k =
      rec_get_field_start_offs_low mem rec k := by
  have hdef : rec_set_nth_field_sql_null_low mem rec n =
      rec_set_nth_field_null_bit_low
        (data_write_sql_null mem (rec + rec_get_field_start_offs_low mem rec n)
          (rec_get_nth_field_size_low mem rec n)) rec n true := rfl
  rw [hdef, null_bit_low_start]
  exact (header_reads_congr mem _ rec
    (fun a ha => data_write_sql_null_below mem rec _ _ a ha) k).2.2

/-- C22: for `n < n_fields`, after `rec_set_nth_field_sql_null_low(rec, n)` the
lookup `rec_get_nth_field_offs_old_low(rec, n)` returns the unchanged field
start with length `UNIV_SQL_NULL`, while `rec_get_field_start_offs_low(rec, k)`
and `rec_get_nth_field_size_low(rec, k)` are the same as before the call for
every `k`, `k = n` included, and the end-info word of every other field, read
in the slot width of the record, hence its NULL and EXTERN flags, is
unchanged; so are the slot width and the field count. -/
theorem rec_set_nth_field_sql_null_low_keeps_layout (mem : Mem) (rec : Int) (n : Nat)
    (hn : n < rec_get_n_fields_old_raw mem rec) :
    rec_get_nth_field_offs_old_low (rec_set_nth_field_sql_null_low mem rec n) rec n =
      some (rec_get_field_start_offs_low mem rec n, UNIV_SQL_NULL) ∧
    (∀ k, rec_get_field_start_offs_low (rec_set_nth_field_sql_null_low mem rec n) rec k =
      rec_get_field_start_offs_low mem rec k) ∧
    (∀ k, rec_get_nth_field_size_low (rec_set_nth_field_sql_null_low mem rec n) rec k =
      rec_get_nth_field_size_low mem rec k) ∧
    (∀ m, m ≠ n →
      (if rec_get_1byte_offs_flag mem rec then
          rec_1_get_field_end_info_low (rec_set_nth_field_sql_null_low mem rec n) rec m
        else rec_2_get_field_end_info_low (rec_set_nth_field_sql_null_low mem rec n) rec m) =
        (if rec_get_1byte_offs_flag mem rec then rec_1_get_field_end_info_low mem rec m
        else rec_2_get_field_end_info_low mem rec m) ∧
      rec_old_null_flag (rec_set_nth_field_sql_null_low mem rec n) rec m =
        rec_old_null_flag mem rec m ∧
      (rec_get_1byte_offs_flag mem rec = false →
        rec_2_get_field_end_info_low (rec_set_nth_field_sql_null_low mem rec n) rec m &&&
            REC_2BYTE_EXTERN_MASK =
          rec_2_get_field_end_info_low mem rec m &&& REC_2BYTE_EXTERN_MASK)) ∧
    rec_get_1byte_offs_flag (rec_set_nth_field_sql_null_low mem rec n) rec =
      rec_get_1byte_offs_flag mem rec ∧
    rec_get_n_fields_old_raw (rec_set_nth_field_sql_null_low mem rec n) rec =
      rec_get_n_fields_old_raw mem rec := by
  obtain ⟨hfix, hflag, _, _, hother⟩ := rec_set_nth_field_sql_null_low_effect mem rec n
  obtain ⟨_, hw, hnf⟩ := fixed_header_congr mem _ rec hfix
  have hstart := sql_null_low_start mem rec n
  refine ⟨?_, hstart, fun k => rec_size_congr mem _ rec k hstart, fun m hm => ?_, hw, hnf⟩
  · rw [offs_old_low_eq _ rec n (by rw [hnf]; exact hn), if_pos hflag, hstart]
  · have ho := hother m hm
    rw [hw] at ho
    refine ⟨ho, ?_, fun h2 => ?_⟩
    · unfold rec_old_null_flag
      rw [hw]
      by_cases h1 : rec_get_1byte_offs_flag mem rec = true
      · rw [if_pos h1] at ho
        rw [if_pos h1] at ho
        rw [if_pos h1, if_pos h1, ho]
      · rw [if_neg h1] at ho
        rw [if_neg h1] at ho
        rw [if_neg h1, if_neg h1, ho]
    · have h1 : ¬ rec_get_1byte_offs_flag mem rec = true := by simp [h2]
      rw [if_neg h1] at ho
      rw [if_neg h1] at ho
      rw [ho]

/-- Instance of C22: field 2 of the 2-byte example record, whose end-info is
9|EXTERN, is set to SQL NULL; it still starts at 5 with size 4, and field 1
keeps its end-info. -/
theorem rec_set_nth_field_sql_null_low_keeps_layout_witness :
    rec_get_nth_field_offs_old_low example_rec_2byte 16 2 = some (5, 4) ∧
    rec_get_nth_field_offs_old_low (rec_set_nth_field_sql_null_low example_rec_2byte 16 2)
      16 2 = some (rec_get_field_start_offs_low example_rec_2byte 16 2, UNIV_SQL_NULL) ∧
    rec_get_nth_field_size_low (rec_set_nth_field_sql_null_low example_rec_2byte 16 2) 16 2 =
      rec_get_nth_field_size_low example_rec_2byte 16 2 ∧
    rec_get_nth_field_size_low example_rec_2byte 16 2 = 4 ∧
    rec_2_get_field_end_info_low (rec_set_nth_field_sql_null_low example_rec_2byte 16 2)
      16 2 = 0xC009 :=
  ⟨by decide,
    (rec_set_nth_field_sql_null_low_keeps_layout example_rec_2byte 16 2 (by decide)).1,
    (rec_set_nth_field_sql_null_low_keeps_layout example_rec_2byte 16 2 (by decide)).2.2.1 2,
    by decide, by decide⟩

/-! ## Length sentinels -/

/-- C23: for `n < n_fields` in which the masked end of field `n` is not below
the masked end of field `n - 1` (0 for `n = 0`), the length returned by
`rec_get_nth_field_offs_low` for a field with none of the NULL/DEFAULT/DROPPED
flags is below `2 ^ 28`, at most `REC_OFFS_MASK`, and so differs from
`UNIV_SQL_NULL`, `UNIV_SQL_ADD_COL_DEFAULT` and `UNIV_SQL_INSTANT_DROP_COL`;
hence the returned length is `UNIV_SQL_NULL` if and only if the NULL flag of
the entry is set. -/
theorem rec_get_nth_field_offs_low_sentinels (offsets : Offsets) (n : Nat)
    (_hn : n < rec_offs_n_fields offsets)
    (hmono : (if n = 0 then 0 else rec_offs_base offsets n &&& REC_OFFS_MASK) ≤
      rec_offs_base offsets (1 + n) &&& REC_OFFS_MASK) :
    ((rec_offs_base offsets (1 + n) &&& REC_OFFS_SQL_NULL = 0 →
      rec_offs_base offsets (1 + n) &&& REC_OFFS_DEFAULT = 0 →
      rec_offs_base offsets (1 + n) &&& REC_OFFS_DROP = 0 →
      (rec_get_nth_field_offs_low offsets n).2 =
        (rec_offs_base offsets (1 + n) &&& REC_OFFS_MASK) -
          (if n = 0 then 0 else rec_offs_base offsets n &&& REC_OFFS_MASK) ∧
      (rec_get_nth_field_offs_low offsets n).2 < 2 ^ 28 ∧
      (rec_get_nth_field_offs_low offsets n).2 ≤ REC_OFFS_MASK ∧
      (rec_get_nth_field_offs_low offsets n).2 ≠ UNIV_SQL_NULL ∧
      (rec_get_nth_field_offs_low offsets n).2 ≠ UNIV_SQL_ADD_COL_DEFAULT ∧
      (rec_get_nth_field_offs_low offsets n).2 ≠ UNIV_SQL_INSTANT_DROP_COL)) ∧
    ((rec_get_nth_field_offs_low offsets n).2 = UNIV_SQL_NULL ↔
      rec_offs_nth_sql_null_low offsets n ≠ 0) := by
  have hfst : (rec_get_nth_field_offs_low offsets n).1 =
      (if n = 0 then 0 else rec_offs_base offsets n &&& REC_OFFS_MASK) := rfl
  have hend := and_offs_mask_lt (rec_offs_base offsets (1 + n))
  have hplain : rec_offs_base offsets (1 + n) &&& REC_OFFS_SQL_NULL = 0 →
      rec_offs_base offsets (1 + n) &&& REC_OFFS_DEFAULT = 0 →
      rec_offs_base offsets (1 + n) &&& REC_OFFS_DROP = 0 →
      (rec_get_nth_field_offs_low offsets n).2 =
        (rec_offs_base offsets (1 + n) &&& REC_OFFS_MASK) -
          (if n = 0 then 0 else rec_offs_base offsets n &&& REC_OFFS_MASK) := by
    intro h1 h2 h3
    rw [offs_low_snd_plain offsets n h1 h2 h3, hfst]
    exact ulint_sub_of_le _ _ (by omega) hmono
  refine ⟨fun h1 h2 h3 => ?_, ?_⟩
  · have hp := hplain h1 h2 h3
    have hm : REC_OFFS_MASK = 2 ^ 28 - 1 := rfl
    refine ⟨hp, by omega, by omega, ?_, ?_, ?_⟩
    · unfold UNIV_SQL_NULL; omega
    · unfold UNIV_SQL_ADD_COL_DEFAULT UNIV_SQL_NULL; omega
    · unfold UNIV_SQL_INSTANT_DROP_COL UNIV_SQL_ADD_COL_DEFAULT UNIV_SQL_NULL; omega
  · unfold rec_offs_nth_sql_null_low
    by_cases h1 : rec_offs_base offsets (1 + n) &&& REC_OFFS_SQL_NULL = 0
    · by_cases h2 : rec_offs_base offsets (1 + n) &&& REC_OFFS_DEFAULT = 0
      · by_cases h3 : rec_offs_base offsets (1 + n) &&& REC_OFFS_DROP = 0
        · have hp := hplain h1 h2 h3
          have : (rec_get_nth_field_offs_low offsets n).2 ≠ UNIV_SQL_NULL := by
            unfold UNIV_SQL_NULL; omega
          simp [h1, this]
        · have : (rec_get_nth_field_offs_low offsets n).2 = UNIV_SQL_INSTANT_DROP_COL := by
            simp [rec_get_nth_field_offs_low, h1, h2, h3]
          rw [this]
          simp [h1]
          decide
      · have : (rec_get_nth_field_offs_low offsets n).2 = UNIV_SQL_ADD_COL_DEFAULT := by
          simp [rec_get_nth_field_offs_low, h1, h2]
        rw [this]
        simp [h1]
        decide
    · have : (rec_get_nth_field_offs_low offsets n).2 = UNIV_SQL_NULL := by
        simp [rec_get_nth_field_offs_low, h1]
      simp [h1, this]

/-- Instance of C23: field 2 of the example array has length 4, and field 1,
whose NULL flag is set, has length `UNIV_SQL_NULL`. -/
theorem rec_get_nth_field_offs_low_sentinels_witness :
    (rec_get_nth_field_offs_low example_offsets 2).2 = 4 ∧
    (rec_get_nth_field_offs_low example_offsets 2).2 < 2 ^ 28 ∧
    (rec_get_nth_field_offs_low example_offsets 2).2 ≠ UNIV_SQL_NULL ∧
    ((rec_get_nth_field_offs_low example_offsets 1).2 = UNIV_SQL_NULL ↔
      rec_offs_nth_sql_null_low example_offsets 1 ≠ 0) ∧
    rec_offs_nth_sql_null_low example_offsets 1 ≠ 0 :=
  ⟨by decide,
    ((rec_get_nth_field_offs_low_sentinels example_offsets 2 (by decide) (by decide)).1
      (by decide) (by decide) (by decide)).2.1,
    ((rec_get_nth_field_offs_low_sentinels example_offsets 2 (by decide) (by decide)).1
      (by decide) (by decide) (by decide)).2.2.2.1,
    (rec_get_nth_field_offs_low_sentinels example_offsets 1 (by decide) (by decide)).2,
    by decide⟩

end Rem
